import Mathlib

/-!
# Verification of the codegraph core against its specification

This file shallowly embeds the core data model and operations of the
codegraph repository (`backend/codegraph/{db,query,validators,parser,builder}.py`)
and proves or refutes the frozen claims about them.

## Modelling conventions

* A Neo4j node is a `Node`: an internal identity `key` (Neo4j node identity),
  a list of `labels`, and the property bag flattened into optional fields
  (an absent property is `none`).  Only the properties read or written by the
  embedded operations are modelled.  The Python parser field `type_annotation`
  is modelled as `typeAnn`.
* A relationship is an `Edge` referencing endpoint `key`s, with the edge
  properties the code uses (`position`, `callee_name`, ...).
* Cypher `MATCH` is embedded as list joins; rows are produced in list order
  (row order is irrelevant to every claim).  Cypher three-valued logic on
  absent properties is translated case by case: a comparison with `null` does
  not match, and `collect` skips `null`s.
* Python `dict.get(k, d)` becomes `Option.getD`; bracket access `d[k]`, which
  raises on a missing key, is also modelled with a default — the well-formedness
  predicate `WF` (justified by the builder's refusal to create id-less nodes and
  the uniqueness constraints of `initialize_schema`) rules those cases out where
  a theorem needs it.
* Violation messages and the `details` bags are not modelled; the structured
  fields the claims talk about (kind, severity, entity id, old/new values,
  caller, callee name, location, target count) are.
* MD5-based ids (`_make_id`) are modelled by the joined key string itself:
  an injective stand-in that preserves the identity semantics of the 16-hex
  fingerprint (modulo MD5 collisions, which the spec assigns to the implementer).
-/

set_option maxRecDepth 4000

/-- Python `str.strip()` character class (ASCII whitespace). -/
def pyIsSpace (c : Char) : Bool :=
  c = ' ' || c = '\t' || c = '\n' || c = '\x0b' || c = '\x0c' || c = '\r'

/-- Python `str.strip()`: drop whitespace from both ends. -/
def pyStrip (s : String) : String :=
  String.mk (((s.toList.dropWhile pyIsSpace).reverse.dropWhile pyIsSpace).reverse)

/-- Python truthiness of an optional string property (`None` and `""` are falsy). -/
def pyTruthy : Option String → Bool
  | some s => s ≠ ""
  | none => false

/-- Python truthiness of an optional boolean property. -/
def boolTruthy (o : Option Bool) : Bool := o = some true

/-- Is `needle` an infix of the character list? -/
def listInfix (needle : List Char) : List Char → Bool
  | [] => needle.isEmpty
  | c :: cs => needle.isPrefixOf (c :: cs) || listInfix needle cs

/-- Python `needle in haystack` substring test. -/
def containsSubstr (haystack needle : String) : Bool :=
  listInfix needle.toList haystack.toList

/-- Python `s.replace("_", "")`. -/
def removeUnderscores (s : String) : String :=
  String.mk (s.toList.filter (fun c => c ≠ '_'))

/-- Python `s.isalnum()` (modelled on the ASCII fragment): non-empty and all
alphanumeric. -/
def pyStrIsAlnum (s : String) : Bool :=
  s ≠ "" && s.toList.all Char.isAlphanum

/-- Python `pre + s` starts-with test (character-list based so that proofs
can evaluate it). -/
def pyStartsWith (s pre : String) : Bool :=
  pre.toList.isPrefixOf s.toList

/-- Python ends-with test (character-list based). -/
def pyEndsWith (s suf : String) : Bool :=
  suf.toList.isSuffixOf s.toList

/-- Python `s.split('.')[-1]`: the last dotted segment (the characters after
the last dot). -/
def lastSegment (s : String) : String :=
  String.mk ((s.toList.reverse.takeWhile (fun c => c ≠ '.')).reverse)

/-- Python `qn.rsplit(".", 1)[0] if "." in qn else ""`: the module part of a
qualified name (the characters before the last dot). -/
def moduleOf (qn : String) : String :=
  if qn.toList.contains '.' then
    String.mk (((qn.toList.reverse.dropWhile (fun c => c ≠ '.')).drop 1).reverse)
  else ""

/-- Python `s.split("[")[0]`: the generic base before the first bracket. -/
def baseOf (s : String) : String :=
  String.mk (s.toList.takeWhile (fun c => c ≠ '['))

/-- Stable insertion of one element into a list sorted by a `Bool` key order. -/
def insertLe {α : Type} (le : α → α → Bool) (a : α) : List α → List α
  | [] => [a]
  | b :: bs => if le a b then a :: b :: bs else b :: insertLe le a bs

/-- Stable insertion sort (models Cypher `ORDER BY` / Python `sorted`). -/
def sortLe {α : Type} (le : α → α → Bool) : List α → List α
  | [] => []
  | a :: as => insertLe le a (sortLe le as)

/-- Remove duplicates keeping the first occurrence (models Python `set`
iteration / Cypher `DISTINCT`; the iteration order of a Python set is not
specified, any fixed order is a sound model for the claims at hand). -/
def dedupFirst {α : Type} [DecidableEq α] : List α → List α
  | [] => []
  | a :: as => a :: ((dedupFirst as).filter (fun b => b ≠ a))

/-- A graph node: Neo4j internal identity `key`, labels, and the flattened
property bag (absent property = `none`).  `typeAnn` models the property
`type_annotation`; `kind` is shared by Parameter and Type nodes as in the
property bag. -/
structure Node where
  key : Nat
  labels : List String := []
  id : Option String := none
  name : Option String := none
  qualifiedName : Option String := none
  location : Option String := none
  changed : Option Bool := none
  isExternal : Option Bool := none
  resolutionStatus : Option String := none
  unresolvedCallee : Option String := none
  argCount : Option Int := none
  argTypes : List String := []
  isClassmethod : Option Bool := none
  isStaticmethod : Option Bool := none
  isProperty : Option Bool := none
  visibility : Option String := none
  defaultValue : Option String := none
  typeAnn : Option String := none
  position : Option Int := none
  kind : Option String := none
  returnType : Option String := none
  scope : Option String := none
  referenceKind : Option String := none
deriving DecidableEq, Repr

/-- A relationship: endpoint node keys, type, and the edge properties the
embedded code reads (`position` on HAS_PARAMETER, `callee_name` on CALLS,
`resolution_status` on RESOLVES_TO). -/
structure Edge where
  src : Nat
  tgt : Nat
  rel : String
  position : Option Int := none
  calleeName : Option String := none
  resolutionStatus : Option String := none
deriving DecidableEq, Repr

/-- The property graph held by the store. -/
structure Graph where
  nodes : List Node
  edges : List Edge
deriving DecidableEq, Repr

/-- Node lookup by Neo4j internal identity. -/
def nodeByKey (g : Graph) (k : Nat) : Option Node :=
  g.nodes.find? (fun n => n.key = k)

/-- `MATCH (n:L)`: the nodes carrying a label. -/
def nodesWithLabel (g : Graph) (l : String) : List Node :=
  g.nodes.filter (fun n => n.labels.contains l)

/-- Does the target of an edge carry a label? -/
def tgtHasLabel (g : Graph) (e : Edge) (l : String) : Bool :=
  match nodeByKey g e.tgt with
  | some t => t.labels.contains l
  | none => false

/-- Does the source of an edge carry a label? -/
def srcHasLabel (g : Graph) (e : Edge) (l : String) : Bool :=
  match nodeByKey g e.src with
  | some t => t.labels.contains l
  | none => false

/-- Well-formedness of a store state: every node has a non-empty `id`
property (the builder refuses to create nodes without one), and `id`s are
unique (the uniqueness constraints of `initialize_schema`, plus ids being
16-hex fingerprints of distinct structural keys). -/
def WF (g : Graph) : Prop :=
  (∀ n ∈ g.nodes, n.id.getD "" ≠ "") ∧
  (∀ a ∈ g.nodes, ∀ b ∈ g.nodes, a.id = b.id → a = b)

instance (g : Graph) : Decidable (WF g) := by
  unfold WF; infer_instance

/-- A validator violation record.  Messages, code snippets and the free-form
`details` bag are not modelled; the structured fields the claims refer to are.
`kindV` models `violation_type.value`, `targetCount` the `target_count`
reported by the resolution-count check. -/
structure Violation where
  kindV : String
  severity : String
  entityId : Option String := none
  oldValue : Option Int := none
  newValue : Option Int := none
  callerQName : Option String := none
  calleeName : Option String := none
  location : Option String := none
  targetCount : Option Nat := none
deriving DecidableEq, Repr

/-! ## `db.py` — store operations -/

/-- `CodeGraphDB.search_nodes` label vetting (db.py:272-284): the `node_type`
argument is stripped; the label filter is used only when the stripped value is
non-empty and, after removing underscores, `isalnum()`. -/
def searchNodesLabel (nodeType : Option String) : Option String :=
  match nodeType with
  | none => none
  | some s =>
    if s = "" then none
    else
      let normalized := pyStrip s
      if normalized ≠ "" && pyStrIsAlnum (removeUnderscores normalized) then
        some normalized
      else
        none

/-- The Cypher text `search_nodes` interpolates the vetted label into
(db.py:285-300); with no vetted label the query matches every label. -/
def searchNodesQuery (nodeType : Option String) : String :=
  match searchNodesLabel nodeType with
  | some label =>
      "MATCH (n:" ++ label ++ ") WHERE toLower(coalesce(n.name, '')) CONTAINS $pattern" ++
      " OR toLower(coalesce(n.qualified_name, '')) CONTAINS $pattern RETURN n, labels(n) as labels LIMIT $limit"
  | none =>
      "MATCH (n) WHERE toLower(coalesce(n.name, '')) CONTAINS $pattern" ++
      " OR toLower(coalesce(n.qualified_name, '')) CONTAINS $pattern RETURN n, labels(n) as labels LIMIT $limit"

/-- `delete_nodes_from_file` predicate: `n.location STARTS WITH $file_path`
(a node without a `location` property does not match). -/
def locStarts (p : String) (n : Node) : Bool :=
  match n.location with
  | some l => pyStartsWith l p
  | none => false

/-- `CodeGraphDB.delete_nodes_from_file` (db.py:47-68): `DETACH DELETE` of all
nodes whose `location` starts with the path; incident relationships go with
them; returns the number of nodes deleted. -/
def deleteNodesFromFile (g : Graph) (p : String) : Graph × Nat :=
  let deleted := g.nodes.filter (fun n => locStarts p n)
  let kept := g.nodes.filter (fun n => !locStarts p n)
  ({ nodes := kept,
     edges := g.edges.filter (fun e =>
       kept.any (fun n => n.key = e.src) && kept.any (fun n => n.key = e.tgt)) },
   deleted.length)

/-- Does a Function row match `resolve_function_id`'s `WHERE` clause
(db.py:383-387)?  A comparison against an absent `qualified_name` or `name`
does not match (Cypher null semantics). -/
def resolveMatches (callee qualifiedSuffix simpleName : String) (f : Node) : Bool :=
  f.qualifiedName = some callee ||
  (match f.qualifiedName with
   | some q => pyEndsWith q qualifiedSuffix
   | none => false) ||
  f.name = some simpleName

/-- The `CASE` priority of `resolve_function_id` (db.py:389-394). -/
def resolvePriority (callee qualifiedSuffix simpleName : String) (f : Node) : Nat :=
  if f.qualifiedName = some callee then 0
  else if (match f.qualifiedName with
           | some q => pyEndsWith q qualifiedSuffix
           | none => false) then 1
  else if f.name = some simpleName then 2
  else 3

/-- The `ORDER BY priority, size(f.qualified_name)` sort key.  Neo4j sorts
nulls last in ascending order, modelled by the middle component. -/
def resolveKey (callee qualifiedSuffix simpleName : String) (f : Node) : Nat × Nat × Nat :=
  (resolvePriority callee qualifiedSuffix simpleName f,
   (if f.qualifiedName.isSome then 0 else 1),
   (match f.qualifiedName with
    | some q => q.length
    | none => 0))

/-- Lexicographic comparison of sort keys. -/
def tripleLe : Nat × Nat × Nat → Nat × Nat × Nat → Bool
  | (a1, a2, a3), (b1, b2, b3) =>
    a1 < b1 || (a1 = b1 && (a2 < b2 || (a2 = b2 && a3 ≤ b3)))

/-- `ORDER BY ... LIMIT 1`: pick a key-minimal element (stable: the first
minimum in row order; the order among fully tied keys is unspecified in
Cypher and any choice models it). -/
def selectMinBy {α : Type} (keyOf : α → Nat × Nat × Nat) : List α → Option α
  | [] => none
  | a :: as =>
    match selectMinBy keyOf as with
    | none => some a
    | some b => if tripleLe (keyOf a) (keyOf b) then some a else some b

/-- The candidate Function rows of `resolve_function_id`. -/
def resolveCandidates (g : Graph) (callee qualifiedSuffix simpleName : String) : List Node :=
  (nodesWithLabel g "Function").filter (resolveMatches callee qualifiedSuffix simpleName)

/-- The `qualified_suffix` parameter of `resolve_function_id` (db.py:382). -/
def qualifiedSuffixOf (calleeName : String) : String :=
  if calleeName.toList.contains '.' then "." ++ calleeName
  else "." ++ lastSegment calleeName

/-- The selected row of `resolve_function_id` for a non-empty name. -/
def resolveSelected (g : Graph) (calleeName : String) : Option Node :=
  selectMinBy (resolveKey calleeName (qualifiedSuffixOf calleeName) (lastSegment calleeName))
    (resolveCandidates g calleeName (qualifiedSuffixOf calleeName) (lastSegment calleeName))

/-- `CodeGraphDB.resolve_function_id` (db.py:371-407): empty name resolves to
nothing; otherwise the Function matching by exact qualified name, qualified
suffix, or simple name, with priority exact > suffix > simple and ties broken
by shortest `qualified_name`, is returned (its `id` property). -/
def resolveFunctionId (g : Graph) (calleeName : String) : Option String :=
  if calleeName = "" then none
  else
    match resolveSelected g calleeName with
    | some f => f.id
    | none => none

/-! ## `db.py` — change-flag propagation -/

/-- Is the `changed` flag set (`n.changed = true`)? -/
def changedTrue (n : Node) : Bool := n.changed = some true

/-- `cs.changed IS NULL OR cs.changed = false`. -/
def changedUnset (n : Node) : Bool := n.changed ≠ some true

/-- Stamp a node's `changed` flag (`SET n.changed = true`). -/
def markNode (n : Node) : Node := { n with changed := some true }

/-- Mark every node whose key is in the row list (with multiplicity ignored
for the marking itself). -/
def markKeys (g : Graph) (ks : List Nat) : Graph :=
  { g with nodes := g.nodes.map (fun n => if ks.contains n.key then markNode n else n) }

/-- One propagation rule of `propagate_changed_flag` (db.py:502-559):
a rule matched as a single-edge pattern.  `srcLabel`/`tgtLabel` are the label
constraints of the pattern (`none` = unconstrained), `changedEnd` tells which
end must already be changed, and the other end is the one that gets marked if
its flag is unset.  Each `session.run` is one rule; the rows are matched
against the state before the rule's `SET` (Neo4j plans an Eager between a
matched `WHERE n.changed...` read and the `SET`). -/
structure PropRule where
  rel : String
  srcLabel : Option String
  tgtLabel : Option String
  markSrc : Bool
deriving Repr

/-- Label gate for an end of a rule pattern. -/
def labelOk (cond : Option String) (n : Node) : Bool :=
  match cond with
  | some l => n.labels.contains l
  | none => true

/-- The rows matched by a single-edge rule: the keys of the nodes that get
marked, with row multiplicity (Cypher `count` counts rows, not distinct
nodes). -/
def ruleRows (g : Graph) (r : PropRule) : List Nat :=
  g.edges.filterMap (fun e =>
    if e.rel = r.rel then
      match nodeByKey g e.src, nodeByKey g e.tgt with
      | some s, some t =>
        if labelOk r.srcLabel s && labelOk r.tgtLabel t then
          if r.markSrc then
            (if changedTrue t && changedUnset s then some s.key else none)
          else
            (if changedTrue s && changedUnset t then some t.key else none)
        else none
      | _, _ => none
    else none)

/-- Apply a single-edge rule: mark the matched keys, return the row count
(`RETURN count(..) as propagated`). -/
def applyRule (g : Graph) (r : PropRule) : Graph × Nat :=
  let rows := ruleRows g r
  (markKeys g rows, rows.length)

/-- Rule 3 of `propagate_changed_flag` (db.py:518-523) is a two-edge pattern:
`(caller:Function)-[:HAS_CALLSITE]->(cs:CallSite)-[:CALLS]->(callee:Function)`
with `callee.changed = true` and `caller` unset; rows are edge pairs. -/
def callerRuleRows (g : Graph) : List Nat :=
  g.edges.flatMap (fun e1 =>
    if e1.rel = "HAS_CALLSITE" then
      match nodeByKey g e1.src, nodeByKey g e1.tgt with
      | some caller, some cs =>
        if caller.labels.contains "Function" && cs.labels.contains "CallSite" then
          g.edges.filterMap (fun e2 =>
            if e2.rel = "CALLS" && e2.src = cs.key then
              match nodeByKey g e2.tgt with
              | some callee =>
                if callee.labels.contains "Function" && changedTrue callee
                    && changedUnset caller then
                  some caller.key
                else none
              | none => none
            else none)
        else []
      | _, _ => []
    else [])

/-- Apply rule 3. -/
def applyCallerRule (g : Graph) : Graph × Nat :=
  let rows := callerRuleRows g
  (markKeys g rows, rows.length)

/-- The single-edge rules of `propagate_changed_flag`, in source order
(db.py:502-559), rule 3 excepted (it is the two-edge `applyCallerRule`):
1: CallSites that `CALLS` changed Functions; 2: CallSites that `RESOLVES_TO`
changed Functions; 4: Classes that `INHERITS` changed Classes; 5: Functions
`DEFINES`d by changed Classes; 6: Parameters of changed Functions;
7: Modules that `IMPORTS` changed Modules; 8: entities `DECLARES`d by changed
Modules. -/
def rulesBefore3 : List PropRule :=
  [ { rel := "CALLS", srcLabel := some "CallSite", tgtLabel := some "Function", markSrc := true },
    { rel := "RESOLVES_TO", srcLabel := some "CallSite", tgtLabel := some "Function", markSrc := true } ]

/-- Rules 4-8 of `propagate_changed_flag`, in source order. -/
def rulesAfter3 : List PropRule :=
  [ { rel := "INHERITS", srcLabel := some "Class", tgtLabel := some "Class", markSrc := true },
    { rel := "DEFINES", srcLabel := some "Class", tgtLabel := some "Function", markSrc := false },
    { rel := "HAS_PARAMETER", srcLabel := some "Function", tgtLabel := some "Parameter", markSrc := false },
    { rel := "IMPORTS", srcLabel := some "Module", tgtLabel := some "Module", markSrc := true },
    { rel := "DECLARES", srcLabel := some "Module", tgtLabel := none, markSrc := false } ]

/-- Run a list of single-edge rules sequentially, summing row counts. -/
def runRules (g : Graph) : List PropRule → Graph × Nat
  | [] => (g, 0)
  | r :: rs =>
    let (g', c) := applyRule g r
    let (g'', c') := runRules g' rs
    (g'', c + c')

/-- One full pass of the eight propagation queries, in source order. -/
def onePass (g : Graph) : Graph × Nat :=
  let (g1, c1) := runRules g rulesBefore3
  let (g2, c2) := applyCallerRule g1
  let (g3, c3) := runRules g2 rulesAfter3
  (g3, c1 + c2 + c3)

/-- Result of `propagate_changed_flag`: final graph, total rows propagated,
and the number of productive iterations run. -/
structure PropResult where
  graph : Graph
  total : Nat
  iters : Nat
deriving Repr

/-- The `while iterations < max_iterations` loop of `propagate_changed_flag`
(db.py:561-579): run passes until a pass propagates zero rows, at most
`fuel` productive passes. -/
def propagateLoop : Nat → Graph → PropResult
  | 0, g => { graph := g, total := 0, iters := 0 }
  | fuel + 1, g =>
    let p := onePass g
    if p.2 = 0 then { graph := p.1, total := 0, iters := 0 }
    else
      let r := propagateLoop fuel p.1
      { graph := r.graph, total := p.2 + r.total, iters := r.iters + 1 }

/-- `CodeGraphDB.propagate_changed_flag` (db.py:491-582) with its
`max_iterations = 10` safety cap. -/
def propagateChangedFlag (g : Graph) : PropResult :=
  propagateLoop 10 g

/-- Monotone evolution of a store under propagation: the relationships are
untouched and every node (by position) is either unchanged or exactly its
`changed`-marked copy — no mark is ever removed. -/
def GraphMono (g h : Graph) : Prop :=
  h.edges = g.edges ∧
  ∀ i : Nat, (h.nodes.get? i = g.nodes.get? i) ∨
    (∃ n, g.nodes.get? i = some n ∧ h.nodes.get? i = some (markNode n))

/-! ## `query.py` — query interface -/

/-- One row of `QueryInterface.find_callers` (query.py:46-70): the caller
Function node plus `cs.arg_count` and `cs.location` from the CallSite. -/
structure CallerRow where
  caller : Node
  argCount : Option Int
  location : Option String
deriving DecidableEq, Repr

/-- `QueryInterface.find_callers`: rows of the pattern
`(caller:Function)-[:HAS_CALLSITE]->(cs:CallSite)-[:RESOLVES_TO]->(callee:Function {id: $function_id})`. -/
def findCallers (g : Graph) (fid : String) : List CallerRow :=
  g.edges.flatMap (fun e2 =>
    if e2.rel = "RESOLVES_TO" then
      match nodeByKey g e2.src, nodeByKey g e2.tgt with
      | some cs, some callee =>
        if cs.labels.contains "CallSite" && callee.labels.contains "Function"
            && callee.id = some fid then
          g.edges.filterMap (fun e1 =>
            if e1.rel = "HAS_CALLSITE" && e1.tgt = cs.key then
              match nodeByKey g e1.src with
              | some caller =>
                if caller.labels.contains "Function" then
                  some { caller := caller, argCount := cs.argCount, location := cs.location }
                else none
              | none => none
            else none)
        else []
      | _, _ => []
    else [])

/-- The `HAS_PARAMETER` rows of a function: `(f)-[r:HAS_PARAMETER]->(p:Parameter)`
with the edge's `position`, ordered by `r.position` (Neo4j sorts ascending). -/
def paramRows (g : Graph) (f : Node) : List (Node × Option Int) :=
  (sortLe (fun a b => a.position.getD 0 ≤ b.position.getD 0)
      (g.edges.filter (fun e =>
        e.rel = "HAS_PARAMETER" && e.src = f.key && tgtHasLabel g e "Parameter"))).filterMap
    (fun e => (nodeByKey g e.tgt).map (fun p => (p, e.position)))

/-- `QueryInterface.get_function_signature` (query.py:104-136): the Function
with the given `id` together with its parameters in position order; `none`
when no such Function exists. -/
def getFunctionSignature (g : Graph) (fid : String) : Option (Node × List (Node × Option Int)) :=
  match (nodesWithLabel g "Function").find? (fun n => n.id = some fid) with
  | none => none
  | some f => some (f, paramRows g f)

/-- `QueryInterface.find_orphaned_nodes` (query.py:230-249): nodes with no
incident relationship in either direction. -/
def findOrphanedNodes (g : Graph) : List Node :=
  g.nodes.filter (fun n => !(g.edges.any (fun e => e.src = n.key || e.tgt = n.key)))

/-- Is there a walk of length 1..fuel from `cur` to `target` over edges whose
type is in `rels` (the intermediate nodes of the Cypher pattern are
unconstrained)?  A relationship-distinct Cypher path exists iff such a walk
with `fuel = edges.length` exists, since a walk reusing a relationship
contains a removable closed sub-walk. -/
def existsWalk (g : Graph) (rels : List String) : Nat → Nat → Nat → Bool
  | 0, _, _ => false
  | fuel + 1, cur, target =>
    g.edges.any (fun e =>
      rels.contains e.rel && e.src = cur &&
        (e.tgt = target || existsWalk g rels fuel e.tgt target))

/-- `QueryInterface.find_circular_dependencies` (query.py:251-268): Function
nodes lying on a `HAS_CALLSITE|RESOLVES_TO` cycle back to themselves.  The
Cypher query returns one row per matched path (`LIMIT 100`); the model
returns one representative cycle `[f.id]` per such Function, which preserves
the emptiness/emitted-violation behaviour the claims depend on. -/
def findCircularDependencies (g : Graph) : List (List String) :=
  ((nodesWithLabel g "Function").filter (fun f =>
      existsWalk g ["HAS_CALLSITE", "RESOLVES_TO"] g.edges.length f.key f.key)).map
    (fun f => [f.id.getD ""])

/-- `QueryInterface.find_circular_inheritance` (query.py:270-283): Class nodes
on an `INHERITS` cycle, with the same per-path-to-per-node simplification. -/
def findCircularInheritance (g : Graph) : List (List String) :=
  ((nodesWithLabel g "Class").filter (fun c =>
      existsWalk g ["INHERITS"] g.edges.length c.key c.key)).map
    (fun c => [c.qualifiedName.getD ""])

/-- Count the relationship-distinct `INHERITS` paths of length ≥ 2 from `cur`
to `target` (fuel-bounded recursion over the remaining edge pool; each path is
counted once, when it ends at the target). -/
def countInheritsPathsAux (g : Graph) : Nat → List Edge → Nat → Nat → Nat → Nat
  | 0, _, _, _, _ => 0
  | fuel + 1, avail, cur, target, len =>
    (if cur = target && len ≥ 2 then 1 else 0) +
      (avail.filter (fun e => e.rel = "INHERITS" && e.src = cur)).foldl
        (fun acc e => acc + countInheritsPathsAux g fuel (avail.erase e) e.tgt target (len + 1))
        0

/-- A diamond-inheritance record of `find_diamond_inheritance`. -/
structure DiamondRow where
  cls : Option String
  base : Option String
  pathCount : Nat
deriving DecidableEq, Repr

/-- `QueryInterface.find_diamond_inheritance` (query.py:285-306):
`(c:Class)-[:INHERITS*2..]->(base:Class)` grouped by `(c, base)` with a path
count; rows whose count exceeds 1. -/
def findDiamondInheritance (g : Graph) : List DiamondRow :=
  (nodesWithLabel g "Class").flatMap (fun c =>
    (nodesWithLabel g "Class").filterMap (fun b =>
      let pc := countInheritsPathsAux g (g.edges.length + 1) g.edges c.key b.key 0
      if pc > 1 then
        some { cls := c.qualifiedName, base := b.qualifiedName, pathCount := pc }
      else none))

/-! ## `validators.py` — type compatibility (T law helper) -/

/-- Is `k` the key of a `Type`-labelled node whose `name` is `nm`? -/
def isTypeNamed (g : Graph) (k : Nat) (nm : String) : Bool :=
  match nodeByKey g k with
  | some n => n.labels.contains "Type" && n.name = some nm
  | none => false

/-- Is there an `IS_SUBTYPE_OF` walk of length ≤ `steps` from node `k` to a
`Type` node named `expected`?  (Intermediate nodes of the `*0..5` pattern are
unconstrained.) -/
def subtypeReach (g : Graph) (expected : String) : Nat → Nat → Bool
  | 0, k => isTypeNamed g k expected
  | steps + 1, k =>
    isTypeNamed g k expected ||
      g.edges.any (fun e =>
        e.rel = "IS_SUBTYPE_OF" && e.src = k && subtypeReach g expected steps e.tgt)

/-- The `IS_SUBTYPE_OF*0..5` store query of `_types_compatible`
(validators.py:981-991): a path of length 0..5 from a `Type` named `actual`
to a `Type` named `expected`. -/
def subtypeQuery (g : Graph) (actual expected : String) : Bool :=
  g.nodes.any (fun n =>
    n.labels.contains "Type" && n.name = some actual && subtypeReach g expected 5 n.key)

/-- `ConservationValidator._types_compatible` (validators.py:929-993),
translated branch by branch: empty names are assumed compatible; raw equality;
then both names are stripped and the `Any`, `None`/`Optional`, numeric
widening, `str`/`bytes`/`Sequence`, `List`→`Sequence`, `Dict`→`Mapping`,
same-generic-base and `IS_SUBTYPE_OF*0..5` rules apply in order. -/
def typesCompatible (g : Graph) (actualRaw expectedRaw : String) : Bool :=
  if actualRaw = "" || expectedRaw = "" then true
  else if actualRaw = expectedRaw then true
  else
    let actual := pyStrip actualRaw
    let expected := pyStrip expectedRaw
    if expected = "Any" || actual = "Any" then true
    else if actual = "None" && containsSubstr expected "Optional" then true
    else if (actual = "bool" && (expected = "int" || expected = "float")) ||
            (actual = "int" && expected = "float") then true
    else if (actual = "str" || actual = "bytes") &&
            (expected = "str" || expected = "bytes" || expected = "Sequence") then true
    else if pyStartsWith actual "List" && pyStartsWith expected "Sequence" then true
    else if pyStartsWith actual "Dict" && pyStartsWith expected "Mapping" then true
    else if actual.toList.contains '[' && expected.toList.contains '[' &&
            baseOf actual = baseOf expected then true
    else subtypeQuery g actual expected

/-! ## `validators.py` — signature conservation (S law) -/

/-- `ConservationValidator._has_transforming_decorator` (validators.py:76-98):
a heuristic on `qualified_name` (falling back to `name`): any of the patterns
`cli.` or `command` occurring as a substring. -/
def hasTransformingDecorator (f : Node) : Bool :=
  let funcName :=
    match f.qualifiedName with
    | some q => q
    | none => f.name.getD ""
  containsSubstr funcName "cli." || containsSubstr funcName "command"

/-- The `params_to_check` adjustment of `validate_signature_conservation`
(validators.py:244-252): drop a leading `self`/`cls` for
classmethod/staticmethod/property functions, a leading `self` otherwise. -/
def dropSelfCls (f : Node) (params : List (Node × Option Int)) : List (Node × Option Int) :=
  if boolTruthy f.isClassmethod || boolTruthy f.isStaticmethod || boolTruthy f.isProperty then
    match params with
    | p :: rest =>
      if p.1.name = some "self" || p.1.name = some "cls" then rest else params
    | [] => params
  else
    match params with
    | p :: rest => if p.1.name = some "self" then rest else params
    | [] => params

/-- `total_params` of a Function: `len(params_to_check)` computed over the
signature rows of `get_function_signature` (0 when the Function is absent,
in which case the check skips it anyway). -/
def totalOf (g : Graph) (f : Node) : Nat :=
  match getFunctionSignature g (f.id.getD "") with
  | some (_, params) => (dropSelfCls f params).length
  | none => 0

/-- `required_params` of a Function: the `params_to_check` without a (truthy)
`default_value` (validators.py:257). -/
def requiredOf (g : Graph) (f : Node) : Nat :=
  match getFunctionSignature g (f.id.getD "") with
  | some (_, params) =>
    ((dropSelfCls f params).filter (fun p => !pyTruthy p.1.defaultValue)).length
  | none => 0

/-- The arity check for one caller row (validators.py:262-307): a
`signature_mismatch` error iff `arg_count` is recorded and falls outside
`[required, total]`. -/
def arityViolation (fid : String) (required total : Nat) (row : CallerRow) : Option Violation :=
  match row.argCount with
  | none => none
  | some k =>
    if k < (required : Int) || k > (total : Int) then
      some { kindV := "signature_mismatch", severity := "error",
             entityId := some fid,
             oldValue := some k,
             newValue := some (if k < (required : Int) then (required : Int) else (total : Int)),
             callerQName := some (row.caller.qualifiedName.getD ""),
             location := row.location }
    else none

/-- The private-visibility check for one caller row (validators.py:309-346):
a `signature_mismatch` warning when the caller's module differs. -/
def visibilityViolation (fid : String) (funcModule : String) (row : CallerRow) : Option Violation :=
  if moduleOf (row.caller.qualifiedName.getD "") ≠ funcModule then
    some { kindV := "signature_mismatch", severity := "warning",
           entityId := some fid,
           callerQName := some (row.caller.qualifiedName.getD "") }
  else none

/-- The per-Function body of `validate_signature_conservation`
(validators.py:224-346): skip decorated functions, fetch the signature,
compute `required`/`total` over `params_to_check`, then check the arity of
every caller and the visibility of private functions. -/
def sigFunctionViolations (g : Graph) (f : Node) : List Violation :=
  if hasTransformingDecorator f then []
  else
    match getFunctionSignature g (f.id.getD "") with
    | none => []
    | some (_, params) =>
      let paramsToCheck := dropSelfCls f params
      let total := paramsToCheck.length
      let required := (paramsToCheck.filter (fun p => !pyTruthy p.1.defaultValue)).length
      let callers := findCallers g (f.id.getD "")
      (callers.filterMap (arityViolation (f.id.getD "") required total)) ++
      (if f.visibility = some "private" then
         callers.filterMap (visibilityViolation (f.id.getD "") (moduleOf (f.qualifiedName.getD "")))
       else [])

/-- `ConservationValidator.validate_signature_conservation`
(validators.py:203-349): the per-Function checks over `MATCH (f:Function)`. -/
def validateSignatureConservation (g : Graph) : List Violation :=
  (nodesWithLabel g "Function").flatMap (sigFunctionViolations g)

/-! ## `validators.py` — reference integrity (R law) -/

/-- The orphan check of `validate_reference_integrity` (validators.py:369-388):
a `reference_broken` warning for every orphaned node that is neither a
Parameter nor a Type. -/
def orphanViolations (g : Graph) : List Violation :=
  (findOrphanedNodes g).filterMap (fun n =>
    if !(n.labels.contains "Parameter") && !(n.labels.contains "Type") then
      some { kindV := "reference_broken", severity := "warning",
             entityId := some (n.id.getD "unknown") }
    else none)

/-- The broken-`CALLS` check (validators.py:390-430):
`(caller:Function)-[r:CALLS]->(callee)` with `callee.id IS NULL`. -/
def brokenCallsViolations (g : Graph) : List Violation :=
  g.edges.filterMap (fun e =>
    if e.rel = "CALLS" then
      match nodeByKey g e.src, nodeByKey g e.tgt with
      | some caller, some callee =>
        if caller.labels.contains "Function" && callee.id = none then
          some { kindV := "reference_broken", severity := "error",
                 entityId := some (caller.id.getD ""),
                 calleeName := some (e.calleeName.getD "unknown") }
        else none
      | _, _ => none
    else none)

/-- `count(f)` over `OPTIONAL MATCH (cs)-[:RESOLVES_TO]->(f:Function)`: the
number of `RESOLVES_TO` relationships from the CallSite to Function nodes. -/
def resolvesToFunctionCount (g : Graph) (cs : Node) : Nat :=
  (g.edges.filter (fun e =>
    e.rel = "RESOLVES_TO" && e.src = cs.key && tgtHasLabel g e "Function")).length

/-- The resolution-count check (validators.py:432-473): every CallSite whose
`resolution_status` is not `'unresolved'` (absent counts as not unresolved)
must have exactly one `RESOLVES_TO` target; deviations are errors carrying
the offending target count. -/
def resolutionCountViolations (g : Graph) : List Violation :=
  (nodesWithLabel g "CallSite").filterMap (fun cs =>
    if cs.resolutionStatus ≠ some "unresolved" then
      if resolvesToFunctionCount g cs ≠ 1 then
        some { kindV := "reference_broken", severity := "error",
               entityId := some (cs.id.getD ""),
               targetCount := some (resolvesToFunctionCount g cs),
               location := cs.location }
      else none
    else none)

/-- The unresolved-CallSite check (validators.py:475-506): every CallSite with
`resolution_status = 'unresolved'` yields an error naming
`unresolved_callee`. -/
def unresolvedCallsiteViolations (g : Graph) : List Violation :=
  (nodesWithLabel g "CallSite").filterMap (fun cs =>
    if cs.resolutionStatus = some "unresolved" then
      some { kindV := "reference_broken", severity := "error",
             entityId := some (cs.id.getD ""),
             calleeName := some (cs.unresolvedCallee.getD "unknown"),
             location := cs.location }
    else none)

/-- The dangling-`REFERENCES` check (validators.py:518-542):
`(source)-[r:REFERENCES]->(target)` with `target.id IS NULL`. -/
def danglingRefViolations (g : Graph) : List Violation :=
  g.edges.filterMap (fun e =>
    if e.rel = "REFERENCES" then
      match nodeByKey g e.src, nodeByKey g e.tgt with
      | some source, some target =>
        if target.id = none then
          some { kindV := "reference_broken", severity := "error",
                 entityId := some (source.id.getD "unknown") }
        else none
      | _, _ => none
    else none)

/-- The `Unresolved`-node check (validators.py:544-569): one error per
`Unresolved` node. -/
def unresolvedNodeViolations (g : Graph) : List Violation :=
  (nodesWithLabel g "Unresolved").map (fun u =>
    { kindV := "reference_broken", severity := "error", entityId := u.id })

/-- `ConservationValidator.validate_reference_integrity`
(validators.py:351-572), in source order. -/
def validateReferenceIntegrity (g : Graph) : List Violation :=
  orphanViolations g ++ brokenCallsViolations g ++ resolutionCountViolations g ++
    unresolvedCallsiteViolations g ++ danglingRefViolations g ++ unresolvedNodeViolations g

/-! ## `validators.py` — data-flow consistency (T law) -/

/-- `_check_missing_type_annotations` (validators.py:610-676): warnings for
parameters without a `type_annotation` (other than `self`/`cls`) and for
functions without a `return_type` whose name is public and not `__init__`
(Cypher: a row with a `null` name fails both `WHERE` comparisons). -/
def missingAnnViolations (g : Graph) : List Violation :=
  ((nodesWithLabel g "Function").flatMap (fun f =>
    (paramRows g f).filterMap (fun p =>
      match p.1.typeAnn, p.1.name with
      | none, some nm =>
        if nm ≠ "self" && nm ≠ "cls" then
          some { kindV := "data_flow_invalid", severity := "warning",
                 entityId := some (p.1.id.getD "") }
        else none
      | _, _ => none))) ++
  ((nodesWithLabel g "Function").filterMap (fun f =>
    match f.name with
    | some nm =>
      if f.returnType = none && !pyStartsWith nm "_" && nm ≠ "__init__" then
        some { kindV := "data_flow_invalid", severity := "warning",
               entityId := some (f.id.getD "") }
      else none
    | none => none))

/-- The `HAS_TYPE` targets of a node that are `Type`-labelled. -/
def hasTypeTargets (g : Graph) (n : Node) : List Node :=
  (g.edges.filter (fun e =>
    e.rel = "HAS_TYPE" && e.src = n.key && tgtHasLabel g e "Type")).filterMap
    (fun e => nodeByKey g e.tgt)

/-- The `(param, type?)` rows `_check_call_type_compatibility` collects for a
function (validators.py:686-693): annotated parameters in position order,
expanded by their optional `HAS_TYPE` targets. -/
def annotatedParamRows (g : Graph) (f : Node) : List (Node × Option Node) :=
  ((paramRows g f).filter (fun p => p.1.typeAnn ≠ none)).flatMap (fun p =>
    let ts := hasTypeTargets g p.1
    match ts with
    | [] => [(p.1, none)]
    | _ => ts.map (fun t => (p.1, some t)))

/-- The per-call-site body of `_check_call_type_compatibility`
(validators.py:696-746): for each recorded argument type, compare against the
parameter's `HAS_TYPE` name (falling back to the annotation string) with
`_types_compatible`. -/
def callTypeViolationsFor (g : Graph) (cs f : Node) : List Violation :=
  let params := annotatedParamRows g f
  let argTypes := cs.argTypes
  if argTypes = [] then []
  else
    ((params.take argTypes.length).enum.filterMap (fun pi =>
      match pi.2.2 with
      | none => none
      | some pt =>
        let argType := argTypes.getD pi.1 ""
        if argType = "" then none
        else
          let expected := pt.name.getD (pi.2.1.typeAnn.getD "")
          if expected ≠ "" && !typesCompatible g argType expected then
            some { kindV := "data_flow_invalid", severity := "error",
                   entityId := some (cs.id.getD ""),
                   location := cs.location }
          else none))

/-- `_check_call_type_compatibility` (validators.py:678-747) over the rows of
`(cs:CallSite)-[:CALLS]->(f:Function)` that have annotated parameters. -/
def callTypeViolations (g : Graph) : List Violation :=
  g.edges.flatMap (fun e =>
    if e.rel = "CALLS" then
      match nodeByKey g e.src, nodeByKey g e.tgt with
      | some cs, some f =>
        if cs.labels.contains "CallSite" && f.labels.contains "Function" &&
            annotatedParamRows g f ≠ [] then
          callTypeViolationsFor g cs f
        else []
      | _, _ => []
    else [])

/-- The `RETURNS_TYPE` targets of a Function that are `Type`-labelled. -/
def returnsTypeTargets (g : Graph) (f : Node) : List Node :=
  (g.edges.filter (fun e =>
    e.rel = "RETURNS_TYPE" && e.src = f.key && tgtHasLabel g e "Type")).filterMap
    (fun e => nodeByKey g e.tgt)

/-- `_check_return_type_consistency` (validators.py:749-808): a warning for
functions with more than one `RETURNS_TYPE` target, and a warning for
functions with a `return_type` annotation but no `RETURNS_TYPE` edge. -/
def returnTypeViolations (g : Graph) : List Violation :=
  ((nodesWithLabel g "Function").filterMap (fun f =>
    if (returnsTypeTargets g f).length > 1 then
      some { kindV := "data_flow_invalid", severity := "warning",
             entityId := some (f.id.getD "") }
    else none)) ++
  ((nodesWithLabel g "Function").filterMap (fun f =>
    if f.returnType ≠ none && returnsTypeTargets g f = [] then
      some { kindV := "data_flow_invalid", severity := "warning",
             entityId := some (f.id.getD "") }
    else none))

/-- `_check_subtype_relationships` (validators.py:810-865): errors for `Type`
nodes on an `IS_SUBTYPE_OF` cycle (the Cypher emits one row per matched path
with `LIMIT 10`; the model emits one per cycling node, truncated to 10), and
warnings for `IS_SUBTYPE_OF` edges whose endpoint `kind`s conflict (Cypher
null semantics: a row with an absent `kind` fails the `WHERE`). -/
def subtypeRelViolations (g : Graph) : List Violation :=
  (((nodesWithLabel g "Type").filter (fun t =>
      existsWalk g ["IS_SUBTYPE_OF"] g.edges.length t.key t.key)).map (fun t =>
    { kindV := "data_flow_invalid", severity := "error",
      entityId := some (t.id.getD "unknown") })).take 10 ++
  (g.edges.filterMap (fun e =>
    if e.rel = "IS_SUBTYPE_OF" then
      match nodeByKey g e.src, nodeByKey g e.tgt with
      | some child, some parent =>
        if child.labels.contains "Type" && parent.labels.contains "Type" then
          match child.kind, parent.kind with
          | some ck, some pk =>
            if ck ≠ pk && pk ≠ "class" && pk ≠ "generic" then
              some { kindV := "data_flow_invalid", severity := "warning",
                     entityId := some (child.id.getD "unknown") }
            else none
          | _, _ => none
        else none
      | _, _ => none
    else none))

/-- The `ASSIGNED_TYPE` target names of a Variable:
`collect(DISTINCT assigned.name)` (collect skips nulls) followed by the
Python filter of falsy entries. -/
def assignedTypeNames (g : Graph) (v : Node) : List String :=
  (dedupFirst (((g.edges.filter (fun e =>
      e.rel = "ASSIGNED_TYPE" && e.src = v.key && tgtHasLabel g e "Type")).filterMap
    (fun e => nodeByKey g e.tgt)).filterMap (fun t => t.name))).filter (fun t => t ≠ "")

/-- The per-row body of `_check_variable_type_compatibility`
(validators.py:882-925): with a declared type, an error per distinct
incompatible assigned type; without one, a warning when more than one
distinct type was inferred. -/
def variableRowViolations (g : Graph) (v : Node) (declared : Option Node) : List Violation :=
  let declaredType :=
    match declared with
    | some d => d.name.getD ""
    | none => if pyTruthy v.typeAnn then v.typeAnn.getD "" else ""
  let inferredTypes := assignedTypeNames g v
  if declaredType ≠ "" then
    (dedupFirst inferredTypes).filterMap (fun resolved =>
      if resolved ≠ "" && resolved ≠ declaredType &&
          !typesCompatible g resolved declaredType then
        some { kindV := "data_flow_invalid", severity := "error",
               entityId := some (v.id.getD "") }
      else none)
  else
    let uniqueInferred := sortLe (fun a b => a ≤ b) (dedupFirst inferredTypes)
    if uniqueInferred.length > 1 then
      [{ kindV := "data_flow_invalid", severity := "warning",
         entityId := some (v.id.getD "") }]
    else []

/-- `_check_variable_type_compatibility` (validators.py:867-927): rows are
grouped by `(v, declared)`; a Variable without a `HAS_TYPE` target yields one
row with a null `declared`. -/
def variableTypeViolations (g : Graph) : List Violation :=
  (nodesWithLabel g "Variable").flatMap (fun v =>
    match hasTypeTargets g v with
    | [] => variableRowViolations g v none
    | ds => ds.flatMap (fun d => variableRowViolations g v (some d)))

/-- `ConservationValidator.validate_data_flow_consistency`
(validators.py:574-608), in source order. -/
def validateDataFlowConsistency (g : Graph) : List Violation :=
  missingAnnViolations g ++ callTypeViolations g ++ returnTypeViolations g ++
    subtypeRelViolations g ++ variableTypeViolations g

/-! ## `validators.py` — structural integrity -/

/-- The edge schema of `validate_edge_types` (validators.py:1105-1125), in
insertion order: `(edge_type, allowed_from_labels, allowed_to_labels)`. -/
def edgeSchema : List (String × List String × List String) :=
  [ ("DECLARES", ["Module"], ["Class", "Function", "Variable"]),
    ("DEFINES", ["Class"], ["Function"]),
    ("HAS_PARAMETER", ["Function"], ["Parameter"]),
    ("CALLS", ["CallSite"], ["Function"]),
    ("HAS_CALLSITE", ["Function"], ["CallSite"]),
    ("INHERITS", ["Class"], ["Class"]),
    ("IMPORTS", ["Module"], ["Module"]),
    ("RETURNS_TYPE", ["Function"], ["Type"]),
    ("HAS_TYPE", ["Parameter", "Variable"], ["Type"]),
    ("RESOLVES_TO", ["CallSite"], ["Function"]),
    ("CONTAINS", ["Module", "Class", "Function"], ["Class", "Function", "Variable", "Parameter"]),
    ("ASSIGNS_TO", ["Function"], ["Variable"]),
    ("READS_FROM", ["Function"], ["Variable"]),
    ("ASSIGNED_TYPE", ["Variable"], ["Type"]),
    ("IS_SUBTYPE_OF", ["Type"], ["Type"]),
    ("HAS_DECORATOR", ["Function", "Class"], ["Decorator"]),
    ("DECORATES", ["Decorator"], ["Function", "Class"]),
    ("REFERENCES", ["Function", "Class", "Decorator"], ["Variable", "Function", "Class", "Decorator", "Type"]),
    ("UNRESOLVED_REFERENCE", ["Function", "Class", "Module"], ["Unresolved"]) ]

/-- `validate_edge_types` (validators.py:1092-1168): for every schema entry,
an error for each edge of that type whose endpoints carry none of the allowed
labels (`LIMIT 100` per edge type). -/
def edgeTypeViolations (g : Graph) : List Violation :=
  edgeSchema.flatMap (fun entry =>
    (g.edges.filterMap (fun e =>
      if e.rel = entry.1 then
        match nodeByKey g e.src, nodeByKey g e.tgt with
        | some a, some b =>
          if !(entry.2.1.any (fun l => a.labels.contains l)) ||
             !(entry.2.2.any (fun l => b.labels.contains l)) then
            some { kindV := "structural_invalid", severity := "error",
                   entityId := some (a.id.getD "unknown") }
          else none
        | _, _ => none
      else none)).take 100)

/-- The parameter-position check of `validate_structural_integrity`
(validators.py:1191-1218): `collect(r.position)` (nulls skipped), sorted, must
equal `[0, 1, ..., n-1]`. -/
def paramPositionViolations (g : Graph) : List Violation :=
  (nodesWithLabel g "Function").filterMap (fun f =>
    let positions := (g.edges.filter (fun e =>
      e.rel = "HAS_PARAMETER" && e.src = f.key && tgtHasLabel g e "Parameter")).filterMap
        (fun e => e.position)
    if positions.length > 0 then
      let sorted := sortLe (fun a b => a ≤ b) positions
      let expected := (List.range positions.length).map (fun i => (i : Int))
      if sorted ≠ expected then
        some { kindV := "structural_invalid", severity := "error",
               entityId := some (f.id.getD "") }
      else none
    else none)

/-- The circular-call check (validators.py:1220-1233). -/
def circularCallViolations (g : Graph) : List Violation :=
  (findCircularDependencies g).map (fun cycle =>
    { kindV := "structural_invalid", severity := "error",
      entityId := some (cycle.headD "unknown") })

/-- The circular-inheritance check (validators.py:1235-1248). -/
def circularInheritanceViolations (g : Graph) : List Violation :=
  (findCircularInheritance g).map (fun cycle =>
    { kindV := "structural_invalid", severity := "error",
      entityId := some (cycle.headD "unknown") })

/-- The diamond-inheritance check (validators.py:1250-1265). -/
def diamondViolations (g : Graph) : List Violation :=
  (findDiamondInheritance g).map (fun pat =>
    { kindV := "structural_invalid", severity := "warning", entityId := pat.cls })

/-- The parameter-ownership check (validators.py:1267-1308): every Parameter
must have exactly one incoming `HAS_PARAMETER` from a Function. -/
def paramOwnershipViolations (g : Graph) : List Violation :=
  (nodesWithLabel g "Parameter").filterMap (fun p =>
    let funcCount := (g.edges.filter (fun e =>
      e.rel = "HAS_PARAMETER" && e.tgt = p.key && srcHasLabel g e "Function")).length
    if funcCount ≠ 1 then
      some { kindV := "structural_invalid", severity := "error",
             entityId := some (p.id.getD ""),
             oldValue := some (funcCount : Int), newValue := some 1 }
    else none)

/-- `ConservationValidator.validate_structural_integrity`
(validators.py:1170-1311), in source order. -/
def validateStructuralIntegrity (g : Graph) : List Violation :=
  edgeTypeViolations g ++ paramPositionViolations g ++ circularCallViolations g ++
    circularInheritanceViolations g ++ diamondViolations g ++ paramOwnershipViolations g

/-- `ConservationValidator.validate_all` without pyright
(validators.py:181-201 via `_collect_law_violations`, validators.py:1431-1437):
structural law (signature conservation then structural integrity), then the
reference law, then the typing law. -/
def validateAll (g : Graph) : List Violation :=
  (validateSignatureConservation g ++ validateStructuralIntegrity g) ++
    validateReferenceIntegrity g ++ validateDataFlowConsistency g

/-! ## `parser.py` / `builder.py` — extraction and build of an empty file -/

/-- Colon-joined parts (`":".join`-style helper for `_make_id`). -/
def joinColonChars : List String → List Char
  | [] => []
  | [s] => s.toList
  | s :: rest => s.toList ++ ':' :: joinColonChars rest

/-- `PythonParser._make_id` (parser.py:243-246) joins the parts with `:` and
takes the first 16 hex digits of the MD5.  The model keeps the joined key
itself: an injective stand-in with the same identity semantics. -/
def makeId (parts : List String) : String :=
  String.mk (joinColonChars parts)

/-- Python `str.replace(pat, "")` on character lists: remove every
(left-to-right, non-overlapping) occurrence of a non-empty pattern; the fuel
is the length of the scanned list. -/
def removeSubAux (pat : List Char) : Nat → List Char → List Char
  | 0, l => l
  | _ + 1, [] => []
  | fuel + 1, c :: cs =>
    if pat.isPrefixOf (c :: cs) && !pat.isEmpty then
      removeSubAux pat fuel ((c :: cs).drop pat.length)
    else
      c :: removeSubAux pat fuel cs

/-- Python `s.replace(pat, "")`. -/
def removeSub (s pat : String) : String :=
  String.mk (removeSubAux pat.toList s.toList.length s.toList)

/-- `PythonParser._get_module_name` (parser.py:237-241): path separators to
dots, all occurrences of `.py` removed (`str.replace` replaces globally). -/
def getModuleName (filePath : String) : String :=
  removeSub (String.mk (filePath.toList.map (fun c => if c = '/' then '.' else c))) ".py"

/-- `os.path.basename(file_path).replace('.py', '')` (parser.py:167). -/
def moduleBasename (filePath : String) : String :=
  removeSub (String.mk ((filePath.toList.reverse.takeWhile (fun c => c ≠ '/')).reverse)) ".py"

/-- The parser's Module entity (parser.py:39-47,165-174); only the fields the
builder persists into modelled node properties are kept. -/
structure ModuleEntity where
  id : String
  name : String
  qualifiedName : String
  path : String
  location : String
  package : Option String
  isExternal : Bool
deriving DecidableEq, Repr

/-- A parser relationship record (parser.py:111-117). -/
structure ParsedRel where
  fromId : String
  toId : String
  relType : String
deriving DecidableEq, Repr

/-- `PythonParser.parse_source` specialized to an empty source text
(parser.py:136-190): `ast.parse("")` yields a Module AST with an empty body,
so `_visit_module` contributes nothing and `_create_type_relationships` finds
no annotated entity; only the Module entity remains. -/
def parseSourceEmpty (filePath : String) : List ModuleEntity × List ParsedRel :=
  let moduleName := getModuleName filePath
  ([{ id := makeId [moduleName],
      name := moduleBasename filePath,
      qualifiedName := moduleName,
      path := filePath,
      location := filePath,
      package := if moduleName.toList.contains '.' then some (moduleOf moduleName) else none,
      isExternal := false }],
   [])

/-- `GraphBuilder._create_node` for a `ModuleEntity` (builder.py:118-132):
the persisted property set (`path`/`package`/`docstring` are persisted too
but lie outside the modelled property fields). -/
def moduleNode (k : Nat) (m : ModuleEntity) : Node :=
  { key := k, labels := ["Module"], id := some m.id, name := some m.name,
    qualifiedName := some m.qualifiedName, location := some m.location,
    isExternal := some m.isExternal }

/-- `GraphBuilder.build_graph` (builder.py:28-47) for a parse result made of
Module entities: upsert each node, then each relationship whose endpoints
exist. -/
def buildModuleGraph (ms : List ModuleEntity) (rels : List ParsedRel) : Graph :=
  let nodes := ms.enum.map (fun p => moduleNode p.1 p.2)
  { nodes := nodes,
    edges := rels.filterMap (fun r =>
      match nodes.find? (fun n => n.id = some r.fromId),
            nodes.find? (fun n => n.id = some r.toId) with
      | some a, some b => some { src := a.key, tgt := b.key, rel := r.relType }
      | _, _ => none) }

/-! ## Concrete stores used to settle the claims -/

/-- A Function taking only `*args, **kwargs`, as the parser and builder
produce it (`kind = var_positional` / `var_keyword`, no defaults). -/
def fVarargs : Node :=
  { key := 0, labels := ["Function"], id := some "f1", name := some "f",
    qualifiedName := some "m.f" }

/-- The `*args` Parameter of `fVarargs`. -/
def pArgs : Node :=
  { key := 1, labels := ["Parameter"], id := some "p1", name := some "args",
    kind := some "var_positional", position := some 0 }

/-- The `**kwargs` Parameter of `fVarargs`. -/
def pKwargs : Node :=
  { key := 2, labels := ["Parameter"], id := some "p2", name := some "kwargs",
    kind := some "var_keyword", position := some 1 }

/-- A caller of `fVarargs`. -/
def callerG : Node :=
  { key := 3, labels := ["Function"], id := some "g1", name := some "g",
    qualifiedName := some "m.g" }

/-- The zero-argument CallSite `f()` resolved to `fVarargs`. -/
def csZero : Node :=
  { key := 4, labels := ["CallSite"], id := some "cs1", argCount := some 0,
    location := some "m.py:5:0" }

/-- Store holding `def f(*args, **kwargs)` and a caller `f()` (claim C2). -/
def gVarargs : Graph :=
  { nodes := [fVarargs, pArgs, pKwargs, callerG, csZero],
    edges := [ { src := 0, tgt := 1, rel := "HAS_PARAMETER", position := some 0 },
               { src := 0, tgt := 2, rel := "HAS_PARAMETER", position := some 1 },
               { src := 3, tgt := 4, rel := "HAS_CALLSITE" },
               { src := 4, tgt := 0, rel := "RESOLVES_TO" } ] }

/-- A changed Class node (claim C4). -/
def classC4 : Node :=
  { key := 0, labels := ["Class"], id := some "c", name := some "C",
    qualifiedName := some "m.C", changed := some true }

/-- A method Function `DECLARES`d by `classC4`, not yet marked (claim C4). -/
def funcC4 : Node :=
  { key := 1, labels := ["Function"], id := some "f", name := some "meth",
    qualifiedName := some "m.C.meth" }

/-- Store with a changed Class and a `DECLARES` edge to its method, exactly
as the parser emits it (parser.py:928-937). -/
def gDeclares : Graph :=
  { nodes := [classC4, funcC4],
    edges := [ { src := 0, tgt := 1, rel := "DECLARES" } ] }

/-- An external-Module placeholder created by `_ensure_import_target`
(parser.py:611-626): its `location` is `"<importing file>:<lineno>:0"`. -/
def extModule : Node :=
  { key := 0, labels := ["Module"], id := some "os", name := some "os",
    qualifiedName := some "os", location := some "a.py:1:0",
    isExternal := some true }

/-- Store holding only the external-Module placeholder for claim C3. -/
def gExternal : Graph :=
  { nodes := [extModule], edges := [] }

/-- The graph built from extracting an empty source file (claim C8). -/
def gEmptyFile : Graph :=
  buildModuleGraph (parseSourceEmpty "/tmp/empty.py").1 (parseSourceEmpty "/tmp/empty.py").2

/-- Witness function for claim C1: `def fw(x)` (one required parameter). -/
def fW1 : Node :=
  { key := 0, labels := ["Function"], id := some "fW", name := some "fw",
    qualifiedName := some "w.fw" }

/-- Witness parameter of `fW1`. -/
def pW1 : Node :=
  { key := 1, labels := ["Parameter"], id := some "pW", name := some "x",
    position := some 0 }

/-- Witness caller for claim C1. -/
def callerW1 : Node :=
  { key := 2, labels := ["Function"], id := some "gW", name := some "gw",
    qualifiedName := some "w.gw" }

/-- Witness CallSite `fw(…5 args…)` for claim C1. -/
def csW1 : Node :=
  { key := 3, labels := ["CallSite"], id := some "csW", argCount := some 5,
    location := some "w.py:3:0" }

/-- Witness store for claim C1. -/
def gW1 : Graph :=
  { nodes := [fW1, pW1, callerW1, csW1],
    edges := [ { src := 0, tgt := 1, rel := "HAS_PARAMETER", position := some 0 },
               { src := 2, tgt := 3, rel := "HAS_CALLSITE" },
               { src := 3, tgt := 0, rel := "RESOLVES_TO" } ] }

/-- The caller row `find_callers` yields in `gW1`. -/
def rowW1 : CallerRow :=
  { caller := callerW1, argCount := some 5, location := some "w.py:3:0" }

/-- Witness CallSite for claim C6: marked unresolved by the builder
(builder.py:283-296). -/
def csW6 : Node :=
  { key := 0, labels := ["CallSite"], id := some "cs6",
    resolutionStatus := some "unresolved", unresolvedCallee := some "boom",
    location := some "w.py:9:4" }

/-- Witness store for claim C6. -/
def gW6 : Graph :=
  { nodes := [csW6], edges := [] }

/-- Witness Function matched exactly by qualified name (claim C7). -/
def fExact : Node :=
  { key := 0, labels := ["Function"], id := some "idExact", name := some "foo",
    qualifiedName := some "a.foo" }

/-- Witness Function matched only as a qualified suffix (claim C7). -/
def fSuffix : Node :=
  { key := 1, labels := ["Function"], id := some "idSuffix", name := some "foo",
    qualifiedName := some "z.a.foo" }

/-- Witness store for claim C7. -/
def gW7 : Graph :=
  { nodes := [fExact, fSuffix], edges := [] }

/-- Witness store for claim C5: a changed Function whose Parameter gets
marked by one propagation pass. -/
def gW5 : Graph :=
  { nodes := [ { key := 0, labels := ["Function"], id := some "f5",
                 changed := some true },
               { key := 1, labels := ["Parameter"], id := some "p5" } ],
    edges := [ { src := 0, tgt := 1, rel := "HAS_PARAMETER", position := some 0 } ] }

/-- Failing input for claim C1: an **undecorated** function whose qualified
name contains `cli.` (any function in a `cli.py` module), as
`_visit_function` emits it for `def serve(x)` with no decorator list. -/
def fCli : Node :=
  { key := 0, labels := ["Function"], id := some "fCli", name := some "serve",
    qualifiedName := some "cli.serve" }

/-- The single required parameter of `fCli`. -/
def pCli : Node :=
  { key := 1, labels := ["Parameter"], id := some "pCli", name := some "x",
    position := some 0 }

/-- A caller of `fCli` from another module. -/
def callerCli : Node :=
  { key := 2, labels := ["Function"], id := some "mainCli", name := some "main",
    qualifiedName := some "app.main" }

/-- The zero-argument CallSite `serve()` resolved to `fCli`. -/
def csCli : Node :=
  { key := 3, labels := ["CallSite"], id := some "csCli", argCount := some 0,
    location := some "app.py:2:0" }

/-- Store holding the undecorated `cli.serve(x)` and a resolved zero-argument
caller (claim C1): no Decorator nodes, no `HAS_DECORATOR` edges. -/
def gCli : Graph :=
  { nodes := [fCli, pCli, callerCli, csCli],
    edges := [ { src := 0, tgt := 1, rel := "HAS_PARAMETER", position := some 0 },
               { src := 2, tgt := 3, rel := "HAS_CALLSITE" },
               { src := 3, tgt := 0, rel := "RESOLVES_TO" } ] }

/-- The caller row `find_callers` yields in `gCli`. -/
def rowCli : CallerRow :=
  { caller := callerCli, argCount := some 0, location := some "app.py:2:0" }

/-! ## Claim theorems -/

/-- Claim C2 (code bug evaluation).  For `def f(*args, **kwargs)` the
signature check does **not** drop the var-positional/var-keyword parameters:
it computes `required = 2`, `total = 2`, and a resolved caller with
`arg_count = 0` receives a `signature_mismatch` error — where the claim (and
Python call semantics) demand `required = 0`, `total = 0` and no violation. -/
theorem varargs_arity_code_eval :
    requiredOf gVarargs fVarargs = 2 ∧ totalOf gVarargs fVarargs = 2 ∧
    validateSignatureConservation gVarargs =
      [{ kindV := "signature_mismatch", severity := "error",
         entityId := some "f1", oldValue := some 0, newValue := some 2,
         callerQName := some "m.g", location := some "m.py:5:0" }] := by
  decide

/-- Claim C4 (code bug evaluation).  `gDeclares` holds a changed Class with a
`DECLARES` edge to a Function, exactly as the parser emits class methods; yet
`propagate_changed_flag` leaves the Function unmarked (and the whole store
unchanged), because its rule 5 listens on the `DEFINES` edge type that the
parser never produces. -/
theorem declares_propagation_code_eval :
    classC4.changed = some true ∧
    gDeclares.edges = [{ src := classC4.key, tgt := funcC4.key, rel := "DECLARES" }] ∧
    funcC4.labels = ["Function"] ∧ classC4.labels = ["Class"] ∧
    (propagateChangedFlag gDeclares).graph = gDeclares ∧
    (nodeByKey (propagateChangedFlag gDeclares).graph funcC4.key).map Node.changed =
      some none := by
  decide

/-- Claim C3 (counterexample).  An external-Module placeholder created for an
an import in `a.py` has `location = "a.py:1:0"`, so
`delete_nodes_from_file("a.py")` deletes it — it does **not** remain in the
store, contradicting the claimed exemption. -/
theorem delete_external_counterexample :
    extModule ∈ gExternal.nodes ∧ extModule.isExternal = some true ∧
    extModule.labels = ["Module"] ∧ locStarts "a.py" extModule = true ∧
    (deleteNodesFromFile gExternal "a.py").1.nodes = [] ∧
    (deleteNodesFromFile gExternal "a.py").2 = 1 := by
  decide

/-- Claim C3 (amended).  `delete_nodes_from_file(p)` detach-deletes exactly
the nodes whose `location` starts with `p` — with **no** exemption for
external Modules — removes the relationships incident to them, and returns
the number of nodes deleted. -/
theorem delete_by_location_amended (g : Graph) (p : String) :
    ((deleteNodesFromFile g p).1.nodes = g.nodes.filter (fun n => !locStarts p n)) ∧
    ((deleteNodesFromFile g p).2 = (g.nodes.filter (fun n => locStarts p n)).length) ∧
    ((deleteNodesFromFile g p).1.edges = g.edges.filter (fun e =>
        (g.nodes.filter (fun n => !locStarts p n)).any (fun n => n.key = e.src) &&
        (g.nodes.filter (fun n => !locStarts p n)).any (fun n => n.key = e.tgt))) ∧
    (∀ n ∈ g.nodes, n.isExternal = some true → locStarts p n = true →
        n ∉ (deleteNodesFromFile g p).1.nodes) := by
  refine ⟨rfl, rfl, rfl, ?_⟩
  intro n _ _ hloc hmem
  have := List.of_mem_filter hmem
  simp [hloc] at this

/-- Witness for `delete_by_location_amended` at the concrete store
`gExternal`. -/
theorem delete_by_location_amended_witness :
    extModule ∈ gExternal.nodes ∧ extModule.isExternal = some true ∧
    locStarts "a.py" extModule = true ∧
    extModule ∉ (deleteNodesFromFile gExternal "a.py").1.nodes :=
  ⟨by decide, by decide, by decide,
    (delete_by_location_amended gExternal "a.py").2.2.2 extModule
      (by decide) (by decide) (by decide)⟩

/-- Claim C8 (counterexample).  Extracting and building an empty source file
yields exactly one Module node and no relationships, but validating that
graph does **not** report zero violations: the reference-integrity law emits
an orphaned-Module warning. -/
theorem empty_file_counterexample :
    gEmptyFile.nodes.length = 1 ∧ gEmptyFile.edges = [] ∧
    (validateAll gEmptyFile).length = 1 ∧
    (validateAll gEmptyFile).map Violation.severity = ["warning"] ∧
    (validateAll gEmptyFile).map Violation.kindV = ["reference_broken"] := by
  decide

/-- Claim C8 (amended).  Extracting and building an empty source file
produces exactly one Module node, no other entities and no relationships,
and validating the resulting graph reports no **error** violations — the
only violation is the single orphaned-Module warning from the
reference-integrity law. -/
theorem empty_file_amended :
    (parseSourceEmpty "/tmp/empty.py").1.length = 1 ∧
    (parseSourceEmpty "/tmp/empty.py").2 = [] ∧
    gEmptyFile.nodes.length = 1 ∧
    (∀ n ∈ gEmptyFile.nodes, n.labels = ["Module"]) ∧
    gEmptyFile.edges = [] ∧
    validateAll gEmptyFile =
      [{ kindV := "reference_broken", severity := "warning",
         entityId := some ".tmp.empty" }] ∧
    (∀ v ∈ validateAll gEmptyFile, v.severity ≠ "error") := by
  decide

/-- Witness for `empty_file_amended`: its universally quantified conjuncts at
the single node and violation. -/
theorem empty_file_amended_witness :
    (∃ n ∈ gEmptyFile.nodes, n.labels = ["Module"]) ∧
    (∃ v ∈ validateAll gEmptyFile, v.severity ≠ "error") :=
  ⟨⟨{ key := 0, labels := ["Module"], id := some ".tmp.empty", name := some "empty",
      qualifiedName := some ".tmp.empty", location := some "/tmp/empty.py",
      isExternal := some false }, by decide,
     empty_file_amended.2.2.2.1 _ (by decide)⟩,
   ⟨{ kindV := "reference_broken", severity := "warning", entityId := some ".tmp.empty" },
     by decide, empty_file_amended.2.2.2.2.2.2 _ (by decide)⟩⟩

/-- Modelled from the claim C9 rule list (the spec's definition of
`types_compatible`): equality; either side `Any`; `None` against an
`Optional` annotation; numeric widening bool→int→float; `str`/`bytes` in a
sequence context; same generic base before `[`; or an `IS_SUBTYPE_OF` path
of length 0..5 in the store.  (Comparisons other than the initial equality
are made on whitespace-stripped names, as the code does.) -/
def claimedTypesRules (g : Graph) (actualRaw expectedRaw : String) : Bool :=
  let actual := pyStrip actualRaw
  let expected := pyStrip expectedRaw
  (actualRaw = expectedRaw) ||
  (expected = "Any" || actual = "Any") ||
  (actual = "None" && containsSubstr expected "Optional") ||
  ((actual = "bool" && (expected = "int" || expected = "float")) ||
   (actual = "int" && expected = "float")) ||
  ((actual = "str" || actual = "bytes") &&
   (expected = "str" || expected = "bytes" || expected = "Sequence")) ||
  (actual.toList.contains '[' && expected.toList.contains '[' &&
   baseOf actual = baseOf expected) ||
  subtypeQuery g actual expected

/-- The full rule set `_types_compatible` actually implements, as a
declarative disjunction: the claimed rules **plus** empty names being
compatible, `List*` being compatible with `Sequence*`, and `Dict*` being
compatible with `Mapping*`. -/
def typesCompatibleRules (g : Graph) (actualRaw expectedRaw : String) : Bool :=
  (actualRaw = "" || expectedRaw = "") ||
  (actualRaw = expectedRaw) ||
  (let actual := pyStrip actualRaw
   let expected := pyStrip expectedRaw
   (expected = "Any" || actual = "Any") ||
   (actual = "None" && containsSubstr expected "Optional") ||
   ((actual = "bool" && (expected = "int" || expected = "float")) ||
    (actual = "int" && expected = "float")) ||
   ((actual = "str" || actual = "bytes") &&
    (expected = "str" || expected = "bytes" || expected = "Sequence")) ||
   (pyStartsWith actual "List" && pyStartsWith expected "Sequence") ||
   (pyStartsWith actual "Dict" && pyStartsWith expected "Mapping") ||
   (actual.toList.contains '[' && expected.toList.contains '[' &&
    baseOf actual = baseOf expected) ||
   subtypeQuery g actual expected)

/-- Claim C9 (counterexample).  On an empty store, `types_compatible`
accepts `("List[int]", "Sequence[str]")` although every rule in the claim's
list fails for that pair: the code contains a `List`→`Sequence` rule the
claim does not mention. -/
theorem types_compatible_counterexample :
    typesCompatible { nodes := [], edges := [] } "List[int]" "Sequence[str]" = true ∧
    claimedTypesRules { nodes := [], edges := [] } "List[int]" "Sequence[str]" = false := by
  decide

/-- Claim C9 (amended).  `types_compatible` returns true exactly when one of
the claimed rules holds **or** one of the three rules the claim omits holds:
either name is empty, `List*` vs `Sequence*`, or `Dict*` vs `Mapping*`. -/
theorem types_compatible_amended (g : Graph) (a e : String) :
    typesCompatible g a e = typesCompatibleRules g a e := by
  unfold typesCompatible typesCompatibleRules
  split_ifs with h1 h2 <;> simp_all [Bool.or_assoc] <;> tauto

/-- Claim C10.  The node-search label filter is applied exactly when the
caller passed a node type that, stripped, is non-empty and whose
underscore-free residue is `isalnum()`; in every other case (`None`, empty,
punctuation, whitespace-only, ...) the filter is silently dropped and the
query runs over all labels.  Consequently every label that is interpolated
into the query text consists solely of alphanumeric characters and
underscores — no unvetted `node_type` text reaches the query string. -/
theorem search_nodes_label_vetting (nt : Option String) :
    ((∃ l, searchNodesLabel nt = some l) ↔
      (∃ s, nt = some s ∧ s ≠ "" ∧ pyStrip s ≠ "" ∧
        pyStrIsAlnum (removeUnderscores (pyStrip s)) = true)) ∧
    (∀ l, searchNodesLabel nt = some l →
      l = pyStrip (nt.getD "") ∧
      l.toList.all (fun c => c.isAlphanum || c = '_') = true) ∧
    (searchNodesLabel nt = none →
      searchNodesQuery nt =
        "MATCH (n) WHERE toLower(coalesce(n.name, '')) CONTAINS $pattern" ++
        " OR toLower(coalesce(n.qualified_name, '')) CONTAINS $pattern RETURN n, labels(n) as labels LIMIT $limit") := by
  refine ⟨?_, ?_, ?_⟩
  · constructor
    · rintro ⟨l, hl⟩
      match nt with
      | none => simp [searchNodesLabel] at hl
      | some s =>
        refine ⟨s, rfl, ?_, ?_, ?_⟩ <;>
          (simp only [searchNodesLabel] at hl; split_ifs at hl with h1 h2 <;> simp_all)
    · rintro ⟨s, rfl, hne, hstrip, halnum⟩
      exact ⟨pyStrip s, by simp [searchNodesLabel, hne, hstrip, halnum]⟩
  · intro l hl
    match nt with
    | none => simp [searchNodesLabel] at hl
    | some s =>
      simp only [searchNodesLabel] at hl
      split_ifs at hl with h1 h2
      have hlps : pyStrip s = l := by injection hl
      subst hlps
      simp only [Bool.and_eq_true, decide_eq_true_eq, pyStrIsAlnum] at h2
      refine ⟨by simp, ?_⟩
      simp only [List.all_eq_true]
      intro c hc
      by_cases hcu : c = '_'
      · simp [hcu]
      · have hmem : c ∈ (removeUnderscores (pyStrip s)).toList := by
          simp only [removeUnderscores, String.toList] at *
          exact List.mem_filter.mpr ⟨hc, by simpa using hcu⟩
        have hall := (List.all_eq_true.mp h2.2.2) c hmem
        simp [hall]
  · intro h
    simp [searchNodesQuery, h]

/-- Witness for `search_nodes_label_vetting`: a padded alphanumeric node type
is vetted and stripped; a node type containing punctuation is silently
ignored. -/
theorem search_nodes_label_vetting_witness :
    searchNodesLabel (some " Function ") = some "Function" ∧
    ("Function".toList.all (fun c => c.isAlphanum || c = '_') = true) ∧
    searchNodesLabel (some "Type; MATCH (m) DETACH DELETE m") = none :=
  ⟨by decide,
   ((search_nodes_label_vetting (some " Function ")).2.1 "Function" (by decide)).2,
   by decide⟩

/-- `tripleLe` is reflexive. -/
theorem tripleLe_refl (x : Nat × Nat × Nat) : tripleLe x x = true := by
  rcases x with ⟨a1, a2, a3⟩
  simp [tripleLe]

/-- `tripleLe` is total. -/
theorem tripleLe_total (x y : Nat × Nat × Nat) :
    tripleLe x y = true ∨ tripleLe y x = true := by
  rcases x with ⟨a1, a2, a3⟩
  rcases y with ⟨b1, b2, b3⟩
  simp only [tripleLe, Bool.or_eq_true, Bool.and_eq_true, decide_eq_true_eq]
  omega

/-- `tripleLe` is transitive. -/
theorem tripleLe_trans {x y z : Nat × Nat × Nat}
    (hxy : tripleLe x y = true) (hyz : tripleLe y z = true) :
    tripleLe x z = true := by
  rcases x with ⟨a1, a2, a3⟩
  rcases y with ⟨b1, b2, b3⟩
  rcases z with ⟨c1, c2, c3⟩
  simp only [tripleLe, Bool.or_eq_true, Bool.and_eq_true, decide_eq_true_eq] at *
  omega

/-- `selectMinBy` is `none` exactly on the empty list. -/
theorem selectMinBy_eq_none {α : Type} (keyOf : α → Nat × Nat × Nat) :
    ∀ l : List α, selectMinBy keyOf l = none ↔ l = [] := by
  intro l
  cases l with
  | nil => simp [selectMinBy]
  | cons x xs =>
    simp only [selectMinBy]
    cases selectMinBy keyOf xs with
    | none => simp
    | some b => by_cases h : tripleLe (keyOf x) (keyOf b) = true <;> simp [h]

/-- A selected minimum is a member of the list. -/
theorem selectMinBy_mem {α : Type} (keyOf : α → Nat × Nat × Nat) :
    ∀ (l : List α) (a : α), selectMinBy keyOf l = some a → a ∈ l := by
  intro l
  induction l with
  | nil => intro a h; simp [selectMinBy] at h
  | cons x xs ih =>
    intro a h
    simp only [selectMinBy] at h
    split at h
    · cases h; exact List.mem_cons_self _ _
    · rename_i b hrec
      by_cases hle : tripleLe (keyOf x) (keyOf b) = true
      · rw [if_pos hle] at h; cases h; exact List.mem_cons_self _ _
      · rw [if_neg hle] at h; cases h; exact List.mem_cons_of_mem _ (ih _ hrec)

/-- A selected minimum has a key `tripleLe`-below every member's key. -/
theorem selectMinBy_min {α : Type} (keyOf : α → Nat × Nat × Nat) :
    ∀ (l : List α) (a : α), selectMinBy keyOf l = some a →
      ∀ b ∈ l, tripleLe (keyOf a) (keyOf b) = true := by
  intro l
  induction l with
  | nil => intro a h; simp [selectMinBy] at h
  | cons x xs ih =>
    intro a h b hb
    simp only [selectMinBy] at h
    split at h
    · rename_i hrec
      cases h
      have hxs : xs = [] := (selectMinBy_eq_none keyOf xs).mp hrec
      subst hxs
      rcases List.mem_singleton.mp hb with rfl
      exact tripleLe_refl _
    · rename_i m hrec
      by_cases hle : tripleLe (keyOf x) (keyOf m) = true
      · rw [if_pos hle] at h
        cases h
        rcases List.mem_cons.mp hb with rfl | hbxs
        · exact tripleLe_refl _
        · exact tripleLe_trans hle (ih _ hrec b hbxs)
      · rw [if_neg hle] at h
        cases h
        rcases List.mem_cons.mp hb with rfl | hbxs
        · rcases tripleLe_total (keyOf a) (keyOf b) with hab | hba
          · exact hab
          · exact absurd hba hle
        · exact ih _ hrec b hbxs

/-- Claim C7.  For a non-empty callee name, `resolve_function_id` returns
`none` when no Function matches; otherwise it returns the `id` of a matching
Function whose sort key — priority (exact qualified = 0, qualified suffix = 1,
simple name = 2) followed by the length of `qualified_name` — is minimal among
all matches: exact beats suffix beats simple name, ties broken by shortest
qualified name. -/
theorem resolve_function_id_priority (g : Graph) (callee : String) (hne : callee ≠ "") :
    (resolveCandidates g callee (qualifiedSuffixOf callee) (lastSegment callee) = [] →
      resolveFunctionId g callee = none) ∧
    (∀ f₀ ∈ resolveCandidates g callee (qualifiedSuffixOf callee) (lastSegment callee),
      ∃ f ∈ resolveCandidates g callee (qualifiedSuffixOf callee) (lastSegment callee),
        resolveFunctionId g callee = f.id ∧
        ∀ f' ∈ resolveCandidates g callee (qualifiedSuffixOf callee) (lastSegment callee),
          tripleLe (resolveKey callee (qualifiedSuffixOf callee) (lastSegment callee) f)
            (resolveKey callee (qualifiedSuffixOf callee) (lastSegment callee) f') = true) := by
  constructor
  · intro hempty
    simp only [resolveFunctionId, if_neg hne, resolveSelected, hempty, selectMinBy]
  · intro f₀ hf₀
    have hnonempty :
        resolveCandidates g callee (qualifiedSuffixOf callee) (lastSegment callee) ≠ [] := by
      intro h; rw [h] at hf₀; cases hf₀
    cases hsel : resolveSelected g callee with
    | none =>
      exact absurd ((selectMinBy_eq_none _ _).mp hsel) hnonempty
    | some f =>
      refine ⟨f, selectMinBy_mem _ _ _ hsel, ?_, selectMinBy_min _ _ _ hsel⟩
      simp only [resolveFunctionId, if_neg hne, hsel]

/-- Witness for `resolve_function_id_priority`: with an exact qualified match
and a suffix match present, resolution picks the exact match. -/
theorem resolve_function_id_priority_witness :
    resolveFunctionId gW7 "a.foo" = some "idExact" ∧
    (∃ f ∈ resolveCandidates gW7 "a.foo" (qualifiedSuffixOf "a.foo") (lastSegment "a.foo"),
      resolveFunctionId gW7 "a.foo" = f.id ∧
      ∀ f' ∈ resolveCandidates gW7 "a.foo" (qualifiedSuffixOf "a.foo") (lastSegment "a.foo"),
        tripleLe (resolveKey "a.foo" (qualifiedSuffixOf "a.foo") (lastSegment "a.foo") f)
          (resolveKey "a.foo" (qualifiedSuffixOf "a.foo") (lastSegment "a.foo") f') = true) :=
  ⟨by decide,
   (resolve_function_id_priority gW7 "a.foo" (by decide)).2 fExact (by decide)⟩

/-- Claim C6.  In a well-formed store, for every CallSite: the
reference-integrity check emits an error with the offending target count
exactly when `resolution_status` is not `'unresolved'` and the `RESOLVES_TO`
out-degree differs from 1, and emits an error naming the recorded
`unresolved_callee` exactly when `resolution_status` is `'unresolved'`; no
other CallSite produces either resolution violation. -/
theorem reference_resolution_iff (g : Graph) (hwf : WF g) (cs : Node)
    (hcs : cs ∈ g.nodes) (hlab : cs.labels.contains "CallSite" = true)
    (cid : String) (hid : cs.id = some cid) :
    ((∃ v ∈ resolutionCountViolations g,
        v.entityId = some cid ∧ v.severity = "error" ∧
        v.targetCount = some (resolvesToFunctionCount g cs)) ↔
      (cs.resolutionStatus ≠ some "unresolved" ∧ resolvesToFunctionCount g cs ≠ 1)) ∧
    ((∃ v ∈ unresolvedCallsiteViolations g,
        v.entityId = some cid ∧ v.severity = "error" ∧
        v.calleeName = some (cs.unresolvedCallee.getD "unknown")) ↔
      cs.resolutionStatus = some "unresolved") := by
  have huniq : ∀ n ∈ g.nodes, n.id.getD "" = cid → n = cs := by
    intro n hn hid'
    have hne := hwf.1 n hn
    have hnid : n.id = some cid := by
      cases hcase : n.id with
      | none => rw [hcase] at hne; simp at hne
      | some s =>
        rw [hcase] at hid'
        simp only [Option.getD] at hid'
        rw [hid']
    exact hwf.2 n hn cs hcs (by rw [hnid, hid])
  have hgetd : cs.id.getD "" = cid := by rw [hid]; rfl
  constructor
  · constructor
    · rintro ⟨v, hv, hvid, _, _⟩
      obtain ⟨cs', hcs', heq⟩ := List.mem_filterMap.mp hv
      have hcs'nodes : cs' ∈ g.nodes := (List.mem_filter.mp hcs').1
      split_ifs at heq with h1 h2
      cases heq
      have hcc : cs' = cs := huniq cs' hcs'nodes (by injection hvid)
      subst hcc
      exact ⟨h1, h2⟩
    · rintro ⟨hstat, hcount⟩
      refine ⟨{ kindV := "reference_broken", severity := "error",
                entityId := some (cs.id.getD ""),
                targetCount := some (resolvesToFunctionCount g cs),
                location := cs.location },
              List.mem_filterMap.mpr ⟨cs, List.mem_filter.mpr ⟨hcs, hlab⟩, ?_⟩, ?_, rfl, rfl⟩
      · rw [if_pos hstat, if_pos hcount]
      · show some (cs.id.getD "") = some cid
        rw [hgetd]
  · constructor
    · rintro ⟨v, hv, hvid, _, _⟩
      obtain ⟨cs', hcs', heq⟩ := List.mem_filterMap.mp hv
      have hcs'nodes : cs' ∈ g.nodes := (List.mem_filter.mp hcs').1
      split_ifs at heq with h1
      cases heq
      have hcc : cs' = cs := huniq cs' hcs'nodes (by injection hvid)
      subst hcc
      exact h1
    · intro hstat
      refine ⟨{ kindV := "reference_broken", severity := "error",
                entityId := some (cs.id.getD ""),
                calleeName := some (cs.unresolvedCallee.getD "unknown"),
                location := cs.location },
              List.mem_filterMap.mpr ⟨cs, List.mem_filter.mpr ⟨hcs, hlab⟩, ?_⟩, ?_, rfl, rfl⟩
      · rw [if_pos hstat]
      · show some (cs.id.getD "") = some cid
        rw [hgetd]

/-- Witness for `reference_resolution_iff`: a CallSite marked unresolved with
`unresolved_callee = "boom"` yields the corresponding error. -/
theorem reference_resolution_iff_witness :
    ∃ v ∈ unresolvedCallsiteViolations gW6,
      v.entityId = some "cs6" ∧ v.severity = "error" ∧
      v.calleeName = some (csW6.unresolvedCallee.getD "unknown") :=
  ((reference_resolution_iff gW6 (by decide) csW6 (by decide) (by decide)
      "cs6" (by decide)).2).mpr (by decide)

/-- In a well-formed store, `get_function_signature` applied to the id of a
present Function returns that Function with its parameter rows. -/
theorem getFunctionSignature_of_mem (g : Graph) (hwf : WF g) (f : Node)
    (hf : f ∈ g.nodes) (hlab : f.labels.contains "Function" = true)
    (fid : String) (hid : f.id = some fid) :
    getFunctionSignature g fid = some (f, paramRows g f) := by
  have hmemF : f ∈ nodesWithLabel g "Function" := List.mem_filter.mpr ⟨hf, hlab⟩
  unfold getFunctionSignature
  cases hfind : (nodesWithLabel g "Function").find? (fun n => n.id = some fid) with
  | none =>
    exfalso
    have := List.find?_eq_none.mp hfind f hmemF
    simp [hid] at this
  | some f' =>
    have hp : f'.id = some fid := by
      have := List.find?_some hfind
      simpa using this
    have hmem' : f' ∈ g.nodes :=
      (List.mem_filter.mp (List.mem_of_find?_eq_some hfind)).1
    have hff : f' = f := hwf.2 f' hmem' f hf (by rw [hp, hid])
    rw [hff]

/-- Supporting characterization of the arity check, scoped to the functions
the code actually inspects.  In a well-formed store, for every Function `f`
that `_has_transforming_decorator`'s name heuristic does not skip and every
incoming caller row of `HAS_CALLSITE→RESOLVES_TO` whose CallSite carries
`arg_count = k`, the check reports a `signature_mismatch` **error** for that
caller (entity `f`, old value `k`) iff `k` lies outside
`[required(f), total(f)]`, where `required` counts the `params_to_check`
without a default and `total` counts all of them.  (The skip predicate is a
name heuristic, not the decorator test the spec's S law prescribes: see
`cli_heuristic_skip_code_eval`.) -/
theorem signature_conservation_iff (g : Graph) (hwf : WF g) (f : Node)
    (hf : f ∈ g.nodes) (hlab : f.labels.contains "Function" = true)
    (fid : String) (hid : f.id = some fid)
    (hdec : hasTransformingDecorator f = false)
    (row : CallerRow) (hrow : row ∈ findCallers g fid)
    (k : Int) (hk : row.argCount = some k) :
    (∃ v ∈ validateSignatureConservation g,
        v.kindV = "signature_mismatch" ∧ v.severity = "error" ∧
        v.entityId = some fid ∧ v.oldValue = some k ∧
        v.callerQName = some (row.caller.qualifiedName.getD "") ∧
        v.location = row.location) ↔
      (k < (requiredOf g f : Int) ∨ ((totalOf g f : Int) < k)) := by
  have hgetd : f.id.getD "" = fid := by rw [hid]; rfl
  have hsig : getFunctionSignature g fid = some (f, paramRows g f) :=
    getFunctionSignature_of_mem g hwf f hf hlab fid hid
  have hreq : requiredOf g f =
      ((dropSelfCls f (paramRows g f)).filter (fun p => !pyTruthy p.1.defaultValue)).length := by
    unfold requiredOf
    rw [hgetd, hsig]
  have htot : totalOf g f = (dropSelfCls f (paramRows g f)).length := by
    unfold totalOf
    rw [hgetd, hsig]
  have huniq : ∀ n ∈ g.nodes, n.id.getD "" = fid → n = f := by
    intro n hn hid'
    have hne := hwf.1 n hn
    have hnid : n.id = some fid := by
      cases hcase : n.id with
      | none => rw [hcase] at hne; simp at hne
      | some s =>
        rw [hcase] at hid'
        simp only [Option.getD] at hid'
        rw [hid']
    exact hwf.2 n hn f hf (by rw [hnid, hid])
  constructor
  · rintro ⟨v, hv, hkind, hsev, hvid, hold, _, _⟩
    obtain ⟨f', hf'mem, hvf'⟩ := List.mem_flatMap.mp hv
    have hf'nodes : f' ∈ g.nodes := (List.mem_filter.mp hf'mem).1
    simp only [sigFunctionViolations] at hvf'
    split at hvf'
    · cases hvf'
    · split at hvf'
      · cases hvf'
      · rename_i fNode params heqsig
        rcases List.mem_append.mp hvf' with hari | hvis
        · obtain ⟨row', hrow', heq⟩ := List.mem_filterMap.mp hari
          unfold arityViolation at heq
          split at heq
          · cases heq
          · rename_i k' hk'
            split at heq
            · rename_i hcond
              cases heq
              have hfid' : f'.id.getD "" = fid := by injection hvid
              have hff : f' = f := huniq f' hf'nodes hfid'
              subst hff
              have hkk : k' = k := by injection hold
              subst hkk
              rw [hfid', hsig] at heqsig
              have hpair := Option.some.inj heqsig
              have hparams' : params = paramRows g f' := congrArg Prod.snd hpair.symm
              rw [hparams'] at hcond
              simp only [Bool.or_eq_true, decide_eq_true_eq] at hcond
              rw [hreq, htot]
              exact hcond
            · cases heq
        · split at hvis
          · obtain ⟨row', _, heq⟩ := List.mem_filterMap.mp hvis
            unfold visibilityViolation at heq
            split at heq
            · cases heq
              simp at hsev
            · cases heq
          · cases hvis
  · intro hrhs
    have hcond : (decide (k < ((((dropSelfCls f (paramRows g f)).filter
          (fun p => !pyTruthy p.1.defaultValue)).length : Nat) : Int)) ||
        decide (k > (((dropSelfCls f (paramRows g f)).length : Nat) : Int))) = true := by
      rw [hreq, htot] at hrhs
      simp only [Bool.or_eq_true, decide_eq_true_eq]
      exact hrhs.imp id id
    refine ⟨{ kindV := "signature_mismatch", severity := "error",
              entityId := some fid,
              oldValue := some k,
              newValue := some (if k < ((((dropSelfCls f (paramRows g f)).filter
                  (fun p => !pyTruthy p.1.defaultValue)).length : Nat) : Int)
                then ((((dropSelfCls f (paramRows g f)).filter
                  (fun p => !pyTruthy p.1.defaultValue)).length : Nat) : Int)
                else (((dropSelfCls f (paramRows g f)).length : Nat) : Int)),
              callerQName := some (row.caller.qualifiedName.getD ""),
              location := row.location },
            List.mem_flatMap.mpr ⟨f, List.mem_filter.mpr ⟨hf, hlab⟩, ?_⟩,
            rfl, rfl, rfl, rfl, rfl, rfl⟩
    unfold sigFunctionViolations
    rw [if_neg (by simp [hdec])]
    rw [hgetd, hsig]
    exact List.mem_append_left _ (List.mem_filterMap.mpr ⟨row, hrow, by
      unfold arityViolation
      simp only [hk]
      rw [if_pos hcond]⟩)

/-- Instance of `signature_conservation_iff`: in `gW1`, the one-parameter
function `fW1` called with 5 arguments produces the arity error. -/
theorem signature_conservation_iff_witness :
    ∃ v ∈ validateSignatureConservation gW1,
      v.kindV = "signature_mismatch" ∧ v.severity = "error" ∧
      v.entityId = some "fW" ∧ v.oldValue = some 5 ∧
      v.callerQName = some (rowW1.caller.qualifiedName.getD "") ∧
      v.location = rowW1.location :=
  (signature_conservation_iff gW1 (by decide) fW1 (by decide) (by decide)
    "fW" (by decide) (by decide) rowW1 (by decide) 5 (by decide)).mpr (by decide)

/-- `GraphMono` is reflexive. -/
theorem graphMono_refl (g : Graph) : GraphMono g g :=
  ⟨rfl, fun _ => Or.inl rfl⟩

/-- Marking twice is marking once. -/
theorem markNode_idem (n : Node) : markNode (markNode n) = markNode n := rfl

/-- `GraphMono` is transitive. -/
theorem graphMono_trans {a b c : Graph} (hab : GraphMono a b) (hbc : GraphMono b c) :
    GraphMono a c := by
  refine ⟨hbc.1.trans hab.1, ?_⟩
  intro i
  rcases hab.2 i with h1 | ⟨n, hn1, hn2⟩
  · rcases hbc.2 i with h2 | ⟨m, hm1, hm2⟩
    · left; rw [h2, h1]
    · right; exact ⟨m, h1 ▸ hm1, hm2⟩
  · rcases hbc.2 i with h2 | ⟨m, hm1, hm2⟩
    · right; exact ⟨n, hn1, h2 ▸ hn2⟩
    · right
      refine ⟨n, hn1, ?_⟩
      have hm : m = markNode n := Option.some.inj (hm1.symm.trans hn2)
      rw [hm2, hm, markNode_idem]

/-- Marking a key set only marks nodes. -/
theorem markKeys_mono (g : Graph) (ks : List Nat) : GraphMono g (markKeys g ks) := by
  refine ⟨rfl, ?_⟩
  intro i
  simp only [markKeys, List.get?_map]
  cases h : g.nodes.get? i with
  | none => left; rfl
  | some n =>
    by_cases hk : ks.contains n.key = true
    · right
      refine ⟨n, rfl, ?_⟩
      show some (if ks.contains n.key then markNode n else n) = some (markNode n)
      rw [if_pos hk]
    · left
      show some (if ks.contains n.key then markNode n else n) = some n
      rw [if_neg hk]

/-- A single-edge propagation rule only marks nodes. -/
theorem applyRule_mono (g : Graph) (r : PropRule) : GraphMono g (applyRule g r).1 :=
  markKeys_mono g (ruleRows g r)

/-- The two-edge caller rule only marks nodes. -/
theorem applyCallerRule_mono (g : Graph) : GraphMono g (applyCallerRule g).1 :=
  markKeys_mono g (callerRuleRows g)

/-- A rule sequence only marks nodes. -/
theorem runRules_mono : ∀ (rs : List PropRule) (g : Graph), GraphMono g (runRules g rs).1
  | [], g => graphMono_refl g
  | r :: rs, g =>
    graphMono_trans (applyRule_mono g r) (runRules_mono rs (applyRule g r).1)

/-- One full propagation pass only marks nodes. -/
theorem onePass_mono (g : Graph) : GraphMono g (onePass g).1 :=
  graphMono_trans (runRules_mono rulesBefore3 g)
    (graphMono_trans (applyCallerRule_mono (runRules g rulesBefore3).1)
      (runRules_mono rulesAfter3 (applyCallerRule (runRules g rulesBefore3).1).1))

/-- Marking no keys is the identity. -/
theorem markKeys_nil (g : Graph) : markKeys g [] = g := by
  cases g
  simp [markKeys]

/-- A rule that matched zero rows changed nothing. -/
theorem applyRule_zero (g : Graph) (r : PropRule) (h : (applyRule g r).2 = 0) :
    (applyRule g r).1 = g := by
  have hrows : ruleRows g r = [] := List.length_eq_zero.mp h
  show markKeys g (ruleRows g r) = g
  rw [hrows, markKeys_nil]

/-- The caller rule with zero rows changed nothing. -/
theorem applyCallerRule_zero (g : Graph) (h : (applyCallerRule g).2 = 0) :
    (applyCallerRule g).1 = g := by
  have hrows : callerRuleRows g = [] := List.length_eq_zero.mp h
  show markKeys g (callerRuleRows g) = g
  rw [hrows, markKeys_nil]

/-- A rule sequence propagating zero rows changed nothing. -/
theorem runRules_zero : ∀ (rs : List PropRule) (g : Graph),
    (runRules g rs).2 = 0 → (runRules g rs).1 = g
  | [], _, _ => rfl
  | r :: rs, g, h => by
    have h2 : (applyRule g r).2 + (runRules (applyRule g r).1 rs).2 = 0 := h
    have ha : (applyRule g r).2 = 0 := Nat.eq_zero_of_add_eq_zero_right h2
    have hb : (runRules (applyRule g r).1 rs).2 = 0 := Nat.eq_zero_of_add_eq_zero_left h2
    have hga : (applyRule g r).1 = g := applyRule_zero g r ha
    have hstep : (runRules g (r :: rs)).1 = (runRules (applyRule g r).1 rs).1 := rfl
    rw [hstep, hga]
    rw [hga] at hb
    exact runRules_zero rs g hb

/-- A pass propagating zero rows changed nothing. -/
theorem onePass_zero (g : Graph) (h : (onePass g).2 = 0) : (onePass g).1 = g := by
  have h2 : (runRules g rulesBefore3).2 +
      (applyCallerRule (runRules g rulesBefore3).1).2 +
      (runRules (applyCallerRule (runRules g rulesBefore3).1).1 rulesAfter3).2 = 0 := h
  have hc1 : (runRules g rulesBefore3).2 = 0 := by omega
  have hc2 : (applyCallerRule (runRules g rulesBefore3).1).2 = 0 := by omega
  have hc3 : (runRules (applyCallerRule (runRules g rulesBefore3).1).1 rulesAfter3).2 = 0 := by
    omega
  have hg1 : (runRules g rulesBefore3).1 = g := runRules_zero _ _ hc1
  have hstep : (onePass g).1 =
      (runRules (applyCallerRule (runRules g rulesBefore3).1).1 rulesAfter3).1 := rfl
  rw [hstep]
  rw [hg1] at hc2 hc3 ⊢
  have hg2 : (applyCallerRule g).1 = g := applyCallerRule_zero g hc2
  rw [hg2] at hc3 ⊢
  exact runRules_zero _ _ hc3

/-- The propagation loop only marks nodes. -/
theorem propagateLoop_mono : ∀ (fuel : Nat) (g : Graph),
    GraphMono g (propagateLoop fuel g).graph
  | 0, g => graphMono_refl g
  | fuel + 1, g => by
    simp only [propagateLoop]
    by_cases h : (onePass g).2 = 0
    · rw [if_pos h]; exact onePass_mono g
    · rw [if_neg h]
      exact graphMono_trans (onePass_mono g) (propagateLoop_mono fuel (onePass g).1)

/-- The propagation loop runs at most `fuel` productive iterations. -/
theorem propagateLoop_iters_le : ∀ (fuel : Nat) (g : Graph),
    (propagateLoop fuel g).iters ≤ fuel
  | 0, _ => Nat.le_refl 0
  | fuel + 1, g => by
    simp only [propagateLoop]
    by_cases h : (onePass g).2 = 0
    · rw [if_pos h]; exact Nat.zero_le _
    · rw [if_neg h]
      exact Nat.succ_le_succ (propagateLoop_iters_le fuel (onePass g).1)

/-- When the loop stops before exhausting its fuel, the resulting store is a
fixpoint: a further pass propagates zero rows. -/
theorem propagateLoop_fix : ∀ (fuel : Nat) (g : Graph),
    (propagateLoop fuel g).iters < fuel → (onePass (propagateLoop fuel g).graph).2 = 0
  | 0, _, h => absurd h (by simp)
  | fuel + 1, g, h => by
    simp only [propagateLoop] at h ⊢
    by_cases h0 : (onePass g).2 = 0
    · rw [if_pos h0]
      show (onePass (onePass g).1).2 = 0
      rw [onePass_zero g h0]
      exact h0
    · rw [if_neg h0] at h ⊢
      exact propagateLoop_fix fuel (onePass g).1 (Nat.lt_of_succ_lt_succ h)

/-- Claim C5.  `propagate_changed_flag` is monotone and terminating: the final
store relates to the initial one by `GraphMono` (relationships untouched, and
every node either unchanged or exactly its `changed := true`-marked copy — a
mark is never removed), it runs at most 10 iterations, and whenever it stops
before the 10-iteration safety cap the stop was because a full pass newly
marked zero nodes (the result is a propagation fixpoint). -/
theorem propagate_changed_monotone_bounded (g : Graph) :
    GraphMono g (propagateChangedFlag g).graph ∧
    (propagateChangedFlag g).iters ≤ 10 ∧
    ((propagateChangedFlag g).iters < 10 →
      (onePass (propagateChangedFlag g).graph).2 = 0) :=
  ⟨propagateLoop_mono 10 g, propagateLoop_iters_le 10 g, propagateLoop_fix 10 g⟩

/-- Witness for `propagate_changed_monotone_bounded` at `gW5`: one productive
iteration (marking the Parameter of the changed Function), then a fixpoint. -/
theorem propagate_changed_monotone_bounded_witness :
    (propagateChangedFlag gW5).iters < 10 ∧
    (onePass (propagateChangedFlag gW5).graph).2 = 0 ∧
    (propagateChangedFlag gW5).graph.edges = gW5.edges :=
  ⟨by decide, (propagate_changed_monotone_bounded gW5).2.2 (by decide),
   (propagate_changed_monotone_bounded gW5).1.1⟩

/-- Claim C1 (code bug evaluation).  The store `gCli` holds the undecorated
function `cli.serve` — no Decorator nodes, no `HAS_DECORATOR` edges — with
one required parameter (`required = total = 1`) and a resolved caller whose
CallSite carries `arg_count = 0`, which is outside `[1, 1]`.  The claim
demands a `signature_mismatch` error for that caller, yet
`validate_signature_conservation` reports **nothing**: the function is
skipped because `_has_transforming_decorator` is a name heuristic
(`'cli.'`/`'command'` as a substring of the qualified name) that never
consults the `SIGNATURE_TRANSFORMING_DECORATORS` allow-list the code
declares for this purpose (validators.py:49, unused; the TODO at
validators.py:95 admits the shortcut), so undecorated functions are exempted
from the S law whenever their names match. -/
theorem cli_heuristic_skip_code_eval :
    (nodesWithLabel gCli "Decorator").length = 0 ∧
    (gCli.edges.filter (fun e => e.rel = "HAS_DECORATOR")).length = 0 ∧
    fCli.labels = ["Function"] ∧
    hasTransformingDecorator fCli = true ∧
    requiredOf gCli fCli = 1 ∧ totalOf gCli fCli = 1 ∧
    findCallers gCli "fCli" = [rowCli] ∧
    rowCli.argCount = some 0 ∧
    validateSignatureConservation gCli = [] := by
  decide
